import Mathlib

/-!
Verification development for the betterauth1 order-approval workflow.

The definitions below are a shallow embedding of the order server actions in
`src/unnamed/part_008` (createOrder, approveOrder, rejectOrder,
warehouseConfirmOrder, warehouseRejectOrder, shipOrder, completeOrder,
failOrder, partialCompleteOrder, cancelOrder, getDashboardMetrics), of the
notification helper in `src/server/notifications.ts`, and of the drizzle
schema in `src/db/order-schema.ts`.  The database is modelled as explicit
state (lists of rows); each server action is a function from the state to a
result/state pair.  External fallible stores (the history insert, the
notification inserts, the SSE push) are modelled through an explicit failure
oracle; a thrown error is modelled as an early return through the enclosing
try/catch of the action, keeping the writes already performed (the source
uses no transaction).  Timestamps are natural numbers, decimal amounts are
rationals.  The Upstash change-history calls and Next.js revalidatePath are
external side channels with no bearing on the database rows and are not
modelled.
-/

namespace OrderWorkflow

/-- The order status enum of `src/db/order-schema.ts` (`orderStatusEnum`). -/
inductive OrderStatus where
  | pending
  | approved
  | edit_requested
  | rejected
  | warehouse_confirmed
  | warehouse_rejected
  | shipped
  | completed
  | partial_complete
  | failed
  | cancelled
  deriving DecidableEq, Repr

/-- The string stored in the `status` column for each enum value. -/
def statusStr : OrderStatus → String
  | .pending => "pending"
  | .approved => "approved"
  | .edit_requested => "edit_requested"
  | .rejected => "rejected"
  | .warehouse_confirmed => "warehouse_confirmed"
  | .warehouse_rejected => "warehouse_rejected"
  | .shipped => "shipped"
  | .completed => "completed"
  | .partial_complete => "partial_complete"
  | .failed => "failed"
  | .cancelled => "cancelled"

/-- One row of the `orders` table, with exactly the columns declared in
`src/db/order-schema.ts` (lines 28-87).  Note that the schema declares no
cancellation-reason column. -/
structure OrderRow where
  id : String
  orderNumber : String
  customerName : String
  customerEmail : Option String := none
  customerPhone : Option String := none
  customerAddress : Option String := none
  total : ℚ
  status : OrderStatus
  createdBy : Option String := none
  updatedBy : Option String := none
  approvedBy : Option String := none
  approvedAt : Option ℕ := none
  rejectionReason : Option String := none
  editRequestReason : Option String := none
  warehouseConfirmedBy : Option String := none
  warehouseConfirmedAt : Option ℕ := none
  warehouseRejectionReason : Option String := none
  shippedBy : Option String := none
  shippedAt : Option ℕ := none
  trackingNumber : Option String := none
  shippingNotes : Option String := none
  completedAt : Option ℕ := none
  completionNotes : Option String := none
  createdAt : ℕ := 0
  updatedAt : ℕ := 0
  deriving DecidableEq, Repr

/-- One row of the `order_items` table. -/
structure ItemRow where
  orderId : String
  name : String
  description : Option String := none
  sku : Option String := none
  price : ℚ
  quantity : ℕ
  quantityShipped : ℕ := 0
  quantityReturned : ℕ := 0
  deriving DecidableEq, Repr

/-- One structured entry of a history row's `fieldChanges` JSON payload
(the design in spec §9 renders the JSON blob as {field, oldValue, newValue}
records; the source stores `JSON.stringify(fieldChanges)`). -/
structure FieldChange where
  field : String
  oldValue : String
  newValue : String
  deriving DecidableEq, Repr

/-- One row of the `order_history` table. -/
structure HistoryRow where
  orderId : String
  action : String
  fromStatus : Option String := none
  toStatus : Option String := none
  fieldChanges : Option (List FieldChange) := none
  performedBy : Option String := none
  reason : Option String := none
  notes : Option String := none
  deriving DecidableEq, Repr

/-- One row of the `notifications` table (the fields the workflow writes). -/
structure NotificationRow where
  userId : String
  title : String
  message : String
  type : String := "order_status"
  orderId : Option String := none
  isRead : Bool := false
  deriving DecidableEq, Repr

/-- One row of the auth `user` table, as consumed by the workflow
(`db.query.user.findMany(eq(user.role, r))`). -/
structure UserRow where
  id : String
  role : String
  deriving DecidableEq, Repr

/-- The durable store: the tables the workflow reads and writes, plus a log
of SSE push events `(recipient, event type)` delivered by
`sendToUser`/`sendToRole` of the SSE route. -/
structure DB where
  orders : List OrderRow := []
  items : List ItemRow := []
  history : List HistoryRow := []
  notifications : List NotificationRow := []
  users : List UserRow := []
  pushed : List (String × String) := []
  deriving DecidableEq, Repr

/-- Failure oracle for the fallible external stores: whether the
`order_history` insert throws, whether a `notifications` insert throws, and
whether an SSE send throws. -/
structure Oracle where
  historyFails : Bool := false
  notifFails : Bool := false
  pushFails : Bool := false
  deriving DecidableEq, Repr

/-- The oracle under which every store operation succeeds. -/
def okOracle : Oracle := {}

/-- The `{ success, message }` object returned by every server action. -/
structure ActionResult where
  success : Bool
  message : String
  deriving DecidableEq, Repr

/-- `SELECT * FROM orders WHERE id = oid` (first row). -/
def findOrder (db : DB) (oid : String) : Option OrderRow :=
  db.orders.find? (fun o => o.id = oid)

/-- `UPDATE orders SET ... WHERE id = oid`. -/
def setOrder (db : DB) (oid : String) (f : OrderRow → OrderRow) : DB :=
  { db with orders := db.orders.map (fun o => if o.id = oid then f o else o) }

/-- `INSERT INTO order_history ...` (`createOrderHistory` of part_008). -/
def appendHistory (db : DB) (e : HistoryRow) : DB :=
  { db with history := db.history ++ [e] }

/-- `INSERT INTO notifications ...` (one row). -/
def insertNotification (db : DB) (n : NotificationRow) : DB :=
  { db with notifications := db.notifications ++ [n] }

/-- `db.query.user.findMany(eq(user.role, r))`, projected to ids. -/
def usersWithRole (db : DB) (r : String) : List String :=
  (db.users.filter (fun u => u.role = r)).map (fun u => u.id)

/-- `createNotification` of `src/server/notifications.ts`: the insert is
wrapped in try/catch, so a storage failure is logged and swallowed — the
notification is simply not persisted and no error propagates. -/
def createNotification (o : Oracle) (db : DB) (userId title message : String)
    (orderId : Option String) : DB :=
  if o.notifFails then db
  else insertNotification db
    { userId := userId, title := title, message := message,
      type := "order_status", orderId := orderId }

/-- Notify a list of recipients one by one through `createNotification`
(the `for ... of` loops of part_008). -/
def notifyEach (o : Oracle) (title message : String) (orderId : Option String)
    (users : List String) (db : DB) : DB :=
  users.foldl (fun d u => createNotification o d u title message orderId) db

/-- The try-wrapped admin fan-out used by completeOrder,
partialCompleteOrder and cancelOrder: query admin users, bulk-insert one
notification per admin, then SSE-push to each; any throw inside the block is
caught and swallowed. -/
def adminFanout (o : Oracle) (title message : String) (oid : String)
    (db : DB) : DB :=
  let admins := usersWithRole db "admin"
  if admins.length = 0 then db
  else if o.notifFails then db
  else
    let rows := admins.map (fun a =>
      ({ userId := a, title := title, message := message,
         type := "order_status", orderId := some oid } : NotificationRow))
    let d := { db with notifications := db.notifications ++ rows }
    if o.pushFails then d
    else { d with pushed := d.pushed ++ admins.map (fun a => (a, "new_notification")) }

/-- `approveOrder` of part_008 (lines 365-500): guards (session, permission,
existence, `status = pending`), then the status UPDATE, the history insert,
`createNotification` to every warehouse user and to the creator, and a
try-wrapped SSE push to the creator and the warehouse role.  A history-insert
throw is caught by the enclosing try/catch, which returns the failure message
while keeping the UPDATE already performed. -/
def approveOrder (session : Option String) (perm : Bool) (o : Oracle)
    (now : ℕ) (oid : String) (db : DB) : ActionResult × DB :=
  match session with
  | none => ({ success := false, message := "Not authenticated" }, db)
  | some actor =>
    if !perm then ({ success := false, message := "Insufficient permissions" }, db)
    else
      match findOrder db oid with
      | none => ({ success := false, message := "Order not found" }, db)
      | some order =>
        if order.status ≠ OrderStatus.pending then
          ({ success := false, message := "Order is not in pending status" }, db)
        else
          let db1 := setOrder db oid (fun r =>
            { r with status := OrderStatus.approved, approvedBy := some actor,
                     approvedAt := some now, updatedBy := some actor })
          if o.historyFails then
            ({ success := false, message := "Failed to approve order" }, db1)
          else
            let db2 := appendHistory db1
              { orderId := oid, action := "status_changed",
                fromStatus := some "pending", toStatus := some "approved",
                performedBy := some actor,
                notes := some "Order approved by accountant" }
            let db3 := notifyEach o "Order Approved - Awaiting Confirmation"
              ("Order " ++ order.orderNumber ++
                " has been approved and is awaiting warehouse confirmation.")
              (some oid) (usersWithRole db2 "warehouse") db2
            let db4 := match order.createdBy with
              | some c => createNotification o db3 c "Order Approved"
                  ("Your order " ++ order.orderNumber ++
                    " has been approved by the accountant.") (some oid)
              | none => db3
            let db5 :=
              if o.pushFails then db4
              else
                let d := match order.createdBy with
                  | some c => { db4 with pushed := db4.pushed ++ [(c, "order_status_changed")] }
                  | none => db4
                let roleSends := (usersWithRole d "warehouse").map
                  (fun u => (u, "order_status_changed"))
                { d with pushed := d.pushed ++ roleSends }
            ({ success := true, message := "Order approved successfully" }, db5)

/-- `rejectOrder` of part_008 (lines 503-580): guards, status UPDATE
(`rejected`, `rejectionReason`), history insert with the reason, then
`createNotification` to the creator. -/
def rejectOrder (session : Option String) (perm : Bool) (o : Oracle)
    (reason : String) (oid : String) (db : DB) : ActionResult × DB :=
  match session with
  | none => ({ success := false, message := "Not authenticated" }, db)
  | some actor =>
    if !perm then ({ success := false, message := "Insufficient permissions" }, db)
    else
      match findOrder db oid with
      | none => ({ success := false, message := "Order not found" }, db)
      | some order =>
        if order.status ≠ OrderStatus.pending then
          ({ success := false, message := "Order is not in pending status" }, db)
        else
          let db1 := setOrder db oid (fun r =>
            { r with status := OrderStatus.rejected,
                     rejectionReason := some reason, updatedBy := some actor })
          if o.historyFails then
            ({ success := false, message := "Failed to reject order" }, db1)
          else
            let db2 := appendHistory db1
              { orderId := oid, action := "status_changed",
                fromStatus := some "pending", toStatus := some "rejected",
                performedBy := some actor, reason := some reason,
                notes := some "Order rejected by accountant" }
            let db3 := match order.createdBy with
              | some c => createNotification o db2 c "Order Rejected"
                  ("Your order " ++ order.orderNumber ++
                    " has been rejected. Reason: " ++ reason) (some oid)
              | none => db2
            ({ success := true, message := "Order rejected successfully" }, db3)

/-- `warehouseConfirmOrder` of part_008 (lines 583-695): guards (status must
be `approved`), UPDATE to `warehouse_confirmed`, history insert, then
`createNotification` to every shipper and to the creator. -/
def warehouseConfirmOrder (session : Option String) (perm : Bool) (o : Oracle)
    (now : ℕ) (oid : String) (db : DB) : ActionResult × DB :=
  match session with
  | none => ({ success := false, message := "Not authenticated" }, db)
  | some actor =>
    if !perm then ({ success := false, message := "Insufficient permissions" }, db)
    else
      match findOrder db oid with
      | none => ({ success := false, message := "Order not found" }, db)
      | some order =>
        if order.status ≠ OrderStatus.approved then
          ({ success := false,
             message := "Order must be approved before warehouse confirmation" }, db)
        else
          let db1 := setOrder db oid (fun r =>
            { r with status := OrderStatus.warehouse_confirmed,
                     warehouseConfirmedBy := some actor,
                     warehouseConfirmedAt := some now, updatedBy := some actor })
          if o.historyFails then
            ({ success := false, message := "Failed to confirm order" }, db1)
          else
            let db2 := appendHistory db1
              { orderId := oid, action := "status_changed",
                fromStatus := some "approved", toStatus := some "warehouse_confirmed",
                performedBy := some actor,
                notes := some "Order confirmed by warehouse" }
            let db3 := notifyEach o "Order Ready for Shipping"
              ("Order " ++ order.orderNumber ++
                " has been confirmed by warehouse and is ready for shipping.")
              (some oid) (usersWithRole db2 "shipper") db2
            let db4 := match order.createdBy with
              | some c => createNotification o db3 c "Order Warehouse Confirmed"
                  ("Your order " ++ order.orderNumber ++
                    " has been confirmed by the warehouse.") (some oid)
              | none => db3
            ({ success := true, message := "Order confirmed by warehouse successfully" }, db4)

/-- `warehouseRejectOrder` of part_008 (lines 698-805): guards (status must
be `approved`), UPDATE to `warehouse_rejected` with the reason, history
insert, then `createNotification` to the creator and to the approving
accountant. -/
def warehouseRejectOrder (session : Option String) (perm : Bool) (o : Oracle)
    (reason : String) (oid : String) (db : DB) : ActionResult × DB :=
  match session with
  | none => ({ success := false, message := "Not authenticated" }, db)
  | some actor =>
    if !perm then ({ success := false, message := "Insufficient permissions" }, db)
    else
      match findOrder db oid with
      | none => ({ success := false, message := "Order not found" }, db)
      | some order =>
        if order.status ≠ OrderStatus.approved then
          ({ success := false,
             message := "Order must be approved before warehouse can reject it" }, db)
        else
          let db1 := setOrder db oid (fun r =>
            { r with status := OrderStatus.warehouse_rejected,
                     warehouseRejectionReason := some reason,
                     updatedBy := some actor })
          if o.historyFails then
            ({ success := false, message := "Failed to reject order" }, db1)
          else
            let db2 := appendHistory db1
              { orderId := oid, action := "status_changed",
                fromStatus := some "approved", toStatus := some "warehouse_rejected",
                performedBy := some actor, reason := some reason,
                notes := some "Order rejected by warehouse" }
            let db3 := match order.createdBy with
              | some c => createNotification o db2 c "Order Rejected by Warehouse"
                  ("Your order " ++ order.orderNumber ++
                    " has been rejected by warehouse. Reason: " ++ reason) (some oid)
              | none => db2
            let db4 := match order.approvedBy with
              | some a => createNotification o db3 a "Order Rejected by Warehouse"
                  ("Order " ++ order.orderNumber ++
                    " that you approved has been rejected by warehouse. Reason: " ++
                    reason) (some oid)
              | none => db3
            ({ success := true, message := "Order rejected by warehouse successfully" }, db4)

/-- `shipOrder` of part_008 (lines 808-920): guards (status must be
`warehouse_confirmed`), UPDATE to `shipped` with tracking number and
shipping notes, history insert, then `createNotification` to the creator. -/
def shipOrder (session : Option String) (perm : Bool) (o : Oracle)
    (now : ℕ) (trackingNumber shippingNotes : Option String)
    (oid : String) (db : DB) : ActionResult × DB :=
  match session with
  | none => ({ success := false, message := "Not authenticated" }, db)
  | some actor =>
    if !perm then ({ success := false, message := "Insufficient permissions" }, db)
    else
      match findOrder db oid with
      | none => ({ success := false, message := "Order not found" }, db)
      | some order =>
        if order.status ≠ OrderStatus.warehouse_confirmed then
          ({ success := false,
             message := "Order must be warehouse confirmed before shipping" }, db)
        else
          let db1 := setOrder db oid (fun r =>
            { r with status := OrderStatus.shipped, shippedBy := some actor,
                     shippedAt := some now, trackingNumber := trackingNumber,
                     shippingNotes := shippingNotes, updatedBy := some actor })
          if o.historyFails then
            ({ success := false, message := "Failed to ship order" }, db1)
          else
            let db2 := appendHistory db1
              { orderId := oid, action := "status_changed",
                fromStatus := some "warehouse_confirmed", toStatus := some "shipped",
                performedBy := some actor,
                notes := some ("Order shipped by shipper" ++
                  (match trackingNumber with
                   | some t => " with tracking: " ++ t
                   | none => "")) }
            let db3 := match order.createdBy with
              | some c => createNotification o db2 c "Order Shipped"
                  ("Your order " ++ order.orderNumber ++ " has been shipped" ++
                    (match trackingNumber with
                     | some t => " with tracking number: " ++ t
                     | none => "") ++ ".") (some oid)
              | none => db2
            ({ success := true, message := "Order shipped successfully" }, db3)

/-- `completeOrder` of part_008 (lines 923-1068): guards (status must be
`shipped`), UPDATE to `completed`, history insert, `createNotification` to
the creator, then the try-wrapped admin fan-out. -/
def completeOrder (session : Option String) (perm : Bool) (o : Oracle)
    (now : ℕ) (completionNotes : Option String)
    (oid : String) (db : DB) : ActionResult × DB :=
  match session with
  | none => ({ success := false, message := "Not authenticated" }, db)
  | some actor =>
    if !perm then ({ success := false, message := "Insufficient permissions" }, db)
    else
      match findOrder db oid with
      | none => ({ success := false, message := "Order not found" }, db)
      | some order =>
        if order.status ≠ OrderStatus.shipped then
          ({ success := false,
             message := "Order must be shipped before completion" }, db)
        else
          let db1 := setOrder db oid (fun r =>
            { r with status := OrderStatus.completed, completedAt := some now,
                     completionNotes := completionNotes, updatedBy := some actor })
          if o.historyFails then
            ({ success := false, message := "Failed to complete order" }, db1)
          else
            let db2 := appendHistory db1
              { orderId := oid, action := "status_changed",
                fromStatus := some "shipped", toStatus := some "completed",
                performedBy := some actor,
                notes := some ("Order completed by shipper" ++
                  (match completionNotes with
                   | some n => ": " ++ n
                   | none => "")) }
            let db3 := match order.createdBy with
              | some c => createNotification o db2 c "Order Completed"
                  ("Your order " ++ order.orderNumber ++
                    " has been completed successfully" ++
                    (match completionNotes with
                     | some n => ". Notes: " ++ n
                     | none => "") ++ ".") (some oid)
              | none => db2
            let db4 := adminFanout o "Order Completed"
              ("Order " ++ order.orderNumber ++ " has been marked as completed")
              oid db3
            ({ success := true, message := "Order completed successfully" }, db4)

/-- `failOrder` of part_008 (lines 1071-1177): guards (status must be
`shipped`), UPDATE to `failed` storing the reason in `completionNotes`,
history insert, then `createNotification` to the creator and to the
warehouse-confirming user. -/
def failOrder (session : Option String) (perm : Bool) (o : Oracle)
    (reason : String) (oid : String) (db : DB) : ActionResult × DB :=
  match session with
  | none => ({ success := false, message := "Not authenticated" }, db)
  | some actor =>
    if !perm then ({ success := false, message := "Insufficient permissions" }, db)
    else
      match findOrder db oid with
      | none => ({ success := false, message := "Order not found" }, db)
      | some order =>
        if order.status ≠ OrderStatus.shipped then
          ({ success := false,
             message := "Order must be shipped before marking as failed" }, db)
        else
          let db1 := setOrder db oid (fun r =>
            { r with status := OrderStatus.failed,
                     completionNotes := some reason, updatedBy := some actor })
          if o.historyFails then
            ({ success := false, message := "Failed to mark order as failed" }, db1)
          else
            let db2 := appendHistory db1
              { orderId := oid, action := "status_changed",
                fromStatus := some "shipped", toStatus := some "failed",
                performedBy := some actor, reason := some reason,
                notes := some "Order marked as failed by shipper" }
            let db3 := match order.createdBy with
              | some c => createNotification o db2 c "Order Failed"
                  ("Your order " ++ order.orderNumber ++
                    " has failed during delivery. Reason: " ++ reason) (some oid)
              | none => db2
            let db4 := match order.warehouseConfirmedBy with
              | some w => createNotification o db3 w "Order Delivery Failed"
                  ("Order " ++ order.orderNumber ++
                    " that you confirmed has failed during delivery. Reason: " ++
                    reason) (some oid)
              | none => db3
            ({ success := true, message := "Order marked as failed successfully" }, db4)

/-- `partialCompleteOrder` of part_008 (lines 1180-1309): guards (status must
be `shipped`), UPDATE to `partial_complete`, history insert, then a direct
`db.insert(notifications)` for the creator that is NOT wrapped in its own
try/catch — its throw propagates to the function's outer catch, which returns
the failure message while keeping the UPDATE and the history insert — and
finally the try-wrapped admin fan-out. -/
def partialCompleteOrder (session : Option String) (perm : Bool) (o : Oracle)
    (notes : Option String) (oid : String) (db : DB) : ActionResult × DB :=
  match session with
  | none => ({ success := false, message := "Not authenticated" }, db)
  | some actor =>
    if !perm then ({ success := false, message := "Insufficient permissions" }, db)
    else
      match findOrder db oid with
      | none => ({ success := false, message := "Order not found" }, db)
      | some order =>
        if order.status ≠ OrderStatus.shipped then
          ({ success := false,
             message := "Order must be shipped before marking as partial complete" }, db)
        else
          let db1 := setOrder db oid (fun r =>
            { r with status := OrderStatus.partial_complete,
                     completionNotes := notes, updatedBy := some actor })
          if o.historyFails then
            ({ success := false,
               message := "Failed to mark order as partially completed" }, db1)
          else
            let db2 := appendHistory db1
              { orderId := oid, action := "status_changed",
                fromStatus := some "shipped", toStatus := some "partial_complete",
                performedBy := some actor, reason := notes,
                notes := some ("Order partially completed by shipper" ++
                  (match notes with
                   | some n => ": " ++ n
                   | none => "")) }
            match order.createdBy with
            | some c =>
              if o.notifFails then
                ({ success := false,
                   message := "Failed to mark order as partially completed" }, db2)
              else
                let db3 := insertNotification db2
                  { userId := c, title := "Order Partially Completed",
                    message := "Your order " ++ order.orderNumber ++
                      " has been partially completed" ++
                      (match notes with
                       | some n => ". Notes: " ++ n
                       | none => "") ++ ".",
                    type := "order_status", orderId := some oid }
                let db4 := adminFanout o "Order Partially Completed"
                  ("Order " ++ order.orderNumber ++
                    " has been marked as partially completed") oid db3
                ({ success := true, message := "Order marked as partially completed" }, db4)
            | none =>
              let db4 := adminFanout o "Order Partially Completed"
                ("Order " ++ order.orderNumber ++
                  " has been marked as partially completed") oid db2
              ({ success := true, message := "Order marked as partially completed" }, db4)

/-- `cancelOrder` of part_008 (lines 1312-1434): the guard blocks only the
statuses `completed`, `failed` and `cancelled`; the UPDATE sets the status to
`cancelled` and `updatedBy` — the `cancellationReason` key passed to `.set()`
matches no column of the `orders` table (`src/db/order-schema.ts` declares
none), so drizzle drops it and only `status` and `updated_by` are written.
Then the history insert (with the reason), a direct unguarded
`db.insert(notifications)` for the creator (its throw propagates to the outer
catch, keeping the prior writes), and the try-wrapped admin fan-out. -/
def cancelOrder (session : Option String) (perm : Bool) (o : Oracle)
    (reason : Option String) (oid : String) (db : DB) : ActionResult × DB :=
  match session with
  | none => ({ success := false, message := "Not authenticated" }, db)
  | some actor =>
    if !perm then ({ success := false, message := "Insufficient permissions" }, db)
    else
      match findOrder db oid with
      | none => ({ success := false, message := "Order not found" }, db)
      | some order =>
        if order.status = OrderStatus.completed ∨
           order.status = OrderStatus.failed ∨
           order.status = OrderStatus.cancelled then
          ({ success := false,
             message := "Cannot cancel an order in status '" ++
               statusStr order.status ++ "'" }, db)
        else
          let db1 := setOrder db oid (fun r =>
            { r with status := OrderStatus.cancelled, updatedBy := some actor })
          if o.historyFails then
            ({ success := false, message := "Failed to cancel order" }, db1)
          else
            let db2 := appendHistory db1
              { orderId := oid, action := "status_changed",
                fromStatus := some (statusStr order.status),
                toStatus := some "cancelled",
                performedBy := some actor, reason := reason,
                notes := some ("Order cancelled" ++
                  (match reason with
                   | some r => ": " ++ r
                   | none => "")) }
            match order.createdBy with
            | some c =>
              if o.notifFails then
                ({ success := false, message := "Failed to cancel order" }, db2)
              else
                let db3 := insertNotification db2
                  { userId := c, title := "Order Cancelled",
                    message := "Your order " ++ order.orderNumber ++
                      " has been cancelled" ++
                      (match reason with
                       | some r => ". Reason: " ++ r
                       | none => "") ++ ".",
                    type := "order_status", orderId := some oid }
                let db4 := adminFanout o "Order Cancelled"
                  ("Order " ++ order.orderNumber ++ " has been cancelled" ++
                    (match reason with
                     | some r => ": " ++ r
                     | none => "")) oid db3
                ({ success := true, message := "Order cancelled successfully" }, db4)
            | none =>
              let db4 := adminFanout o "Order Cancelled"
                ("Order " ++ order.orderNumber ++ " has been cancelled" ++
                  (match reason with
                   | some r => ": " ++ r
                   | none => "")) oid db2
              ({ success := true, message := "Order cancelled successfully" }, db4)

/-- One line item of `CreateOrderData` (part_008 lines 32-44). -/
structure CreateItemData where
  name : String
  description : Option String := none
  sku : Option String := none
  price : ℚ
  quantity : ℕ
  deriving DecidableEq, Repr

/-- `CreateOrderData` of part_008. -/
structure CreateOrderData where
  customerName : String
  customerEmail : Option String := none
  customerPhone : Option String := none
  customerAddress : Option String := none
  items : List CreateItemData
  deriving DecidableEq, Repr

/-- `data.items.reduce((sum, item) => sum + item.price * item.quantity, 0)`
(part_008 lines 102-105). -/
def orderTotal (items : List CreateItemData) : ℚ :=
  items.foldl (fun sum item => sum + item.price * (item.quantity : ℚ)) 0

/-- `createOrder` of part_008 (lines 77-268): computes the total, inserts the
order in status `pending`, inserts the items, appends the `order_created`
history entry, try-notifies the creator, then bulk-inserts one notification
per accountant — an insert that is NOT wrapped in its own try/catch — and
finally try-pushes over SSE.  The generated id and order number arrive as
parameters (uuid/`generateOrderNumber` are random). -/
def createOrder (session : Option String) (perm : Bool) (o : Oracle)
    (newId orderNumber : String) (data : CreateOrderData) (db : DB) :
    ActionResult × DB :=
  match session with
  | none => ({ success := false, message := "Not authenticated" }, db)
  | some actor =>
    if !perm then ({ success := false, message := "Insufficient permissions" }, db)
    else
      let total := orderTotal data.items
      let row : OrderRow :=
        { id := newId, orderNumber := orderNumber,
          customerName := data.customerName,
          customerEmail := data.customerEmail,
          customerPhone := data.customerPhone,
          customerAddress := data.customerAddress,
          total := total, status := OrderStatus.pending,
          createdBy := some actor, updatedBy := some actor }
      let db1 := { db with orders := db.orders ++ [row] }
      let newItems := data.items.map (fun item =>
        ({ orderId := newId, name := item.name, description := item.description,
           sku := item.sku, price := item.price,
           quantity := item.quantity } : ItemRow))
      let db2 := { db1 with items := db1.items ++ newItems }
      if o.historyFails then
        ({ success := false, message := "Failed to create order" }, db2)
      else
        let db3 := appendHistory db2
          { orderId := newId, action := "order_created",
            toStatus := some "pending", performedBy := some actor,
            notes := some "Order created by sales team" }
        -- creator notification + push, wrapped in try/catch (swallowed)
        let db4 :=
          if o.notifFails then db3
          else
            let d := insertNotification db3
              { userId := actor, title := "Order Created",
                message := "Order " ++ orderNumber ++
                  " has been created and is pending approval",
                type := "order_status", orderId := some newId }
            if o.pushFails then d
            else { d with pushed := d.pushed ++ [(actor, "new_notification")] }
        -- accountant bulk insert, NOT wrapped: a throw reaches the outer catch
        let accountants := usersWithRole db4 "accountant"
        if accountants.length ≠ 0 ∧ o.notifFails then
          ({ success := false, message := "Failed to create order" }, db4)
        else
          let rows := accountants.map (fun a =>
            ({ userId := a, title := "New Order Pending Approval",
               message := "Order " ++ orderNumber ++ " from " ++
                 data.customerName ++ " is pending your approval.",
               type := "order_status", orderId := some newId } : NotificationRow))
          let db5 := { db4 with notifications := db4.notifications ++ rows }
          let db6 :=
            if o.pushFails then db5
            else
              let roleSends := accountants.map (fun u => (u, "order_created"))
              let notifSends := accountants.map (fun u => (u, "new_notification"))
              { db5 with pushed := db5.pushed ++ roleSends ++ notifSends }
          ({ success := true, message := "Order created successfully" }, db6)

/-- The nine status transitions of the Lifecycle Engine, with their
action-specific payloads (spec §4.1; part_008). -/
inductive TAction where
  | approve
  | reject (reason : String)
  | warehouseConfirm
  | warehouseReject (reason : String)
  | ship (trackingNumber shippingNotes : Option String)
  | complete (completionNotes : Option String)
  | deliveryFailed (reason : String)
  | partialComplete (notes : Option String)
  | cancel (reason : Option String)
  deriving DecidableEq, Repr

/-- Dispatch a transition request to the corresponding server action. -/
def applyAction (a : TAction) (session : Option String) (perm : Bool)
    (o : Oracle) (now : ℕ) (oid : String) (db : DB) : ActionResult × DB :=
  match a with
  | .approve => approveOrder session perm o now oid db
  | .reject reason => rejectOrder session perm o reason oid db
  | .warehouseConfirm => warehouseConfirmOrder session perm o now oid db
  | .warehouseReject reason => warehouseRejectOrder session perm o reason oid db
  | .ship t n => shipOrder session perm o now t n oid db
  | .complete n => completeOrder session perm o now n oid db
  | .deliveryFailed reason => failOrder session perm o reason oid db
  | .partialComplete n => partialCompleteOrder session perm o n oid db
  | .cancel r => cancelOrder session perm o r oid db

/-- The transitions whose notification persistence goes only through
`createNotification` or through try-wrapped blocks (every one except
`partialCompleteOrder` and `cancelOrder`, whose creator notification is a
direct unguarded insert). -/
def notifGuarded : TAction → Bool
  | .partialComplete _ => false
  | .cancel _ => false
  | _ => true

/-- Count of orders in a given status. -/
def countStatus (allOrders : List OrderRow) (s : OrderStatus) : ℕ :=
  (allOrders.filter (fun r => r.status = s)).length

/-- The base block of `getDashboardMetrics` (part_008 lines 1450-1476),
computed for every role. -/
structure BaseMetrics where
  totalOrders : ℕ
  pendingOrders : ℕ
  approvedOrders : ℕ
  rejectedOrders : ℕ
  completedOrders : ℕ
  totalRevenue : ℚ
  averageOrderValue : ℚ
  deriving DecidableEq, Repr

/-- `sum + parseFloat(order.total)` over the completed orders. -/
def revenueOf (allOrders : List OrderRow) : ℚ :=
  ((allOrders.filter (fun r => r.status = OrderStatus.completed)).map
    (fun r => r.total)).sum

def baseMetrics (allOrders : List OrderRow) : BaseMetrics :=
  let completedOrders := countStatus allOrders OrderStatus.completed
  let totalRevenue := revenueOf allOrders
  { totalOrders := allOrders.length,
    pendingOrders := countStatus allOrders OrderStatus.pending,
    approvedOrders := countStatus allOrders OrderStatus.approved,
    rejectedOrders := countStatus allOrders OrderStatus.rejected,
    completedOrders := completedOrders,
    totalRevenue := totalRevenue,
    averageOrderValue :=
      if completedOrders > 0 then totalRevenue / (completedOrders : ℚ) else 0 }

/-- The `roleSpecificMetrics` object of the sales branch. -/
structure SalesMetrics where
  myOrders : ℕ
  monthlyOrders : ℕ
  monthlyRevenue : ℚ
  conversionRate : ℚ
  deriving DecidableEq, Repr

/-- The `roleSpecificMetrics` object of the accountant branch. -/
structure AccountantMetrics where
  approvedToday : ℕ
  pendingValue : ℚ
  approvalRate : ℚ
  deriving DecidableEq, Repr

/-- The `roleSpecificMetrics` object of the warehouse branch
(`inventoryAlerts` and `avgProcessingTime` are hard-coded mock constants in
the source, lines 1568-1572). -/
structure WarehouseMetrics where
  readyToShip : ℕ
  confirmedToday : ℕ
  inventoryAlerts : ℕ
  avgProcessingTime : ℚ
  deriving DecidableEq, Repr

/-- The `roleSpecificMetrics` object of the shipper branch. -/
structure ShipperMetrics where
  readyToShip : ℕ
  inTransit : ℕ
  deliveredToday : ℕ
  deliveryRate : ℚ
  deriving DecidableEq, Repr

/-- The `roleSpecificMetrics` object of the admin (default) branch
(`activeUsers` is a hard-coded mock constant, line 1627). -/
structure AdminMetrics where
  activeUsers : ℕ
  monthlyOrders : ℕ
  deriving DecidableEq, Repr

/-- The role-specific half of the metrics response. -/
inductive RoleSpecificMetrics where
  | sales (m : SalesMetrics)
  | accountant (m : AccountantMetrics)
  | warehouse (m : WarehouseMetrics)
  | shipper (m : ShipperMetrics)
  | admin (m : AdminMetrics)
  deriving DecidableEq, Repr

/-- `getDashboardMetrics` of part_008 (lines 1437-1708), as a function of the
actor's role and id, the order set, and the two date cut-offs the source
computes (`thisMonth`, `today`).  In the source, `const today` is declared in
the accountant case of the switch; the warehouse and shipper cases read
`today` inside filter callbacks, so whenever such a callback actually reaches
that read (an order with `warehouse_confirmed` status and a set
`warehouseConfirmedAt`, resp. `completed` status and a set `completedAt`) the
function throws a ReferenceError, caught by the outer try/catch, which
returns the failure message — modelled by the `Except.error` branches. -/
def getDashboardMetrics (role userId : String) (allOrders : List OrderRow)
    (thisMonth today : ℕ) : Except String (BaseMetrics × RoleSpecificMetrics) :=
  let base := baseMetrics allOrders
  if role = "sales" then
    let myOrders := allOrders.filter (fun r => r.createdBy = some userId)
    let monthlyOrders := myOrders.filter (fun r => r.createdAt ≥ thisMonth)
    let monthlyRevenue := revenueOf monthlyOrders
    let conversionRate :=
      if myOrders.length > 0 then
        (((myOrders.filter (fun r => r.status ≠ OrderStatus.rejected)).length : ℚ) /
          (myOrders.length : ℚ)) * 100
      else 0
    Except.ok (base, RoleSpecificMetrics.sales
      { myOrders := myOrders.length, monthlyOrders := monthlyOrders.length,
        monthlyRevenue := monthlyRevenue, conversionRate := conversionRate })
  else if role = "accountant" then
    let approvedToday := (allOrders.filter (fun r =>
      r.status = OrderStatus.approved ∧
        r.approvedAt.any (fun t => today ≤ t))).length
    let pendingValue := ((allOrders.filter
      (fun r => r.status = OrderStatus.pending)).map (fun r => r.total)).sum
    let totalReviewed := (allOrders.filter (fun r =>
      r.status = OrderStatus.approved ∨ r.status = OrderStatus.rejected)).length
    let approvalRate :=
      if totalReviewed > 0 then
        ((base.approvedOrders : ℚ) / (totalReviewed : ℚ)) * 100
      else 0
    Except.ok (base, RoleSpecificMetrics.accountant
      { approvedToday := approvedToday, pendingValue := pendingValue,
        approvalRate := approvalRate })
  else if role = "warehouse" then
    -- reading `today` here throws: it is declared in the accountant case
    if allOrders.any (fun r =>
        r.status = OrderStatus.warehouse_confirmed ∧ r.warehouseConfirmedAt.isSome) then
      Except.error "Failed to fetch dashboard metrics"
    else
      Except.ok (base, RoleSpecificMetrics.warehouse
        { readyToShip := countStatus allOrders OrderStatus.approved,
          confirmedToday := 0, inventoryAlerts := 3, avgProcessingTime := 5 / 2 })
  else if role = "shipper" then
    if allOrders.any (fun r =>
        r.status = OrderStatus.completed ∧ r.completedAt.isSome) then
      Except.error "Failed to fetch dashboard metrics"
    else
      let totalShipped := (allOrders.filter (fun r =>
        r.status = OrderStatus.completed ∨ r.status = OrderStatus.failed)).length
      let deliveryRate :=
        if totalShipped > 0 then
          ((base.completedOrders : ℚ) / (totalShipped : ℚ)) * 100
        else 0
      Except.ok (base, RoleSpecificMetrics.shipper
        { readyToShip := countStatus allOrders OrderStatus.warehouse_confirmed,
          inTransit := countStatus allOrders OrderStatus.shipped,
          deliveredToday := 0, deliveryRate := deliveryRate })
  else
    Except.ok (base, RoleSpecificMetrics.admin
      { activeUsers := 25,
        monthlyOrders := (allOrders.filter
          (fun r => r.createdAt ≥ thisMonth)).length })

/-- The edited order a sales actor submits when resubmitting after
`edit_requested` (the whole-order edit of spec §3: customer contact fields
and the item list, from which the total is recomputed). -/
structure EditData where
  customerName : String
  customerEmail : Option String := none
  customerPhone : Option String := none
  customerAddress : Option String := none
  items : List CreateItemData
  deriving DecidableEq, Repr

/-- Render an optional text column the way the diff records it. -/
def optStr : Option String → String
  | some s => s
  | none => ""

/-- Render a decimal amount for the diff payload. -/
def ratStr (q : ℚ) : String :=
  toString q.num ++ "/" ++ toString q.den

/-- One diff entry when a field changed, nothing when it did not. -/
def diffField (name oldV newV : String) : List FieldChange :=
  if oldV = newV then []
  else [{ field := name, oldValue := oldV, newValue := newV }]

/-- Modelled from the spec: the field-level diff (old value → new value per
changed field) that the resubmit transition must capture (spec §4.1, edit
tracking).  The source has no resubmit server action — only the
`edit_requested` enum value, the `fieldChanges` history column and a UI diff
renderer exist — so the diff is defined from the spec's words over the
editable fields. -/
def orderDiff (oldRow : OrderRow) (e : EditData) : List FieldChange :=
  diffField "customerName" oldRow.customerName e.customerName ++
  diffField "customerEmail" (optStr oldRow.customerEmail) (optStr e.customerEmail) ++
  diffField "customerPhone" (optStr oldRow.customerPhone) (optStr e.customerPhone) ++
  diffField "customerAddress" (optStr oldRow.customerAddress) (optStr e.customerAddress) ++
  diffField "total" (ratStr oldRow.total) (ratStr (orderTotal e.items))

/-- Modelled from the spec: the sales `resubmit` transition (§4.1 row
"sales | resubmit | edit_requested | pending | (edited order)"): guarded like
every transition, it applies the edited fields, recomputes the total, returns
the order to `pending`, and appends one History Entry whose structured
payload is the field-level diff.  Absent from the source (no server action
implements it). -/
def resubmitOrder (session : Option String) (perm : Bool) (e : EditData)
    (oid : String) (db : DB) : ActionResult × DB :=
  match session with
  | none => ({ success := false, message := "Not authenticated" }, db)
  | some actor =>
    if !perm then ({ success := false, message := "Insufficient permissions" }, db)
    else
      match findOrder db oid with
      | none => ({ success := false, message := "Order not found" }, db)
      | some order =>
        if order.status ≠ OrderStatus.edit_requested then
          ({ success := false, message := "Order is not in edit_requested status" }, db)
        else
          let db1 := setOrder db oid (fun r =>
            { r with status := OrderStatus.pending,
                     customerName := e.customerName,
                     customerEmail := e.customerEmail,
                     customerPhone := e.customerPhone,
                     customerAddress := e.customerAddress,
                     total := orderTotal e.items,
                     updatedBy := some actor })
          let db2 := appendHistory db1
            { orderId := oid, action := "order_resubmitted",
              fromStatus := some "edit_requested", toStatus := some "pending",
              fieldChanges := some (orderDiff order e),
              performedBy := some actor }
          ({ success := true, message := "Order resubmitted successfully" }, db2)

/-- The write phase of approveOrder — everything after the status
precondition check passes (part_008 lines 405-495): the UPDATE (which carries
no status guard in its WHERE clause), the history insert, the notifications
and the try-wrapped SSE push — acting on the row the request read earlier. -/
def approveApply (actor : String) (o : Oracle) (now : ℕ) (oid : String)
    (order : OrderRow) (db : DB) : ActionResult × DB :=
  let db1 := setOrder db oid (fun r =>
    { r with status := OrderStatus.approved, approvedBy := some actor,
             approvedAt := some now, updatedBy := some actor })
  if o.historyFails then
    ({ success := false, message := "Failed to approve order" }, db1)
  else
    let db2 := appendHistory db1
      { orderId := oid, action := "status_changed",
        fromStatus := some "pending", toStatus := some "approved",
        performedBy := some actor,
        notes := some "Order approved by accountant" }
    let db3 := notifyEach o "Order Approved - Awaiting Confirmation"
      ("Order " ++ order.orderNumber ++
        " has been approved and is awaiting warehouse confirmation.")
      (some oid) (usersWithRole db2 "warehouse") db2
    let db4 := match order.createdBy with
      | some c => createNotification o db3 c "Order Approved"
          ("Your order " ++ order.orderNumber ++
            " has been approved by the accountant.") (some oid)
      | none => db3
    let db5 :=
      if o.pushFails then db4
      else
        let d := match order.createdBy with
          | some c => { db4 with pushed := db4.pushed ++ [(c, "order_status_changed")] }
          | none => db4
        let roleSends := (usersWithRole d "warehouse").map
          (fun u => (u, "order_status_changed"))
        { d with pushed := d.pushed ++ roleSends }
    ({ success := true, message := "Order approved successfully" }, db5)

/-- Two concurrent approveOrder requests on the same order (both sessions
authenticated with permission), under the interleaving SELECT₁, SELECT₂,
write-phase₁, write-phase₂: each request reads the order before either has
written, then runs its own status check and write phase against the row it
read.  The source runs the SELECT and the UPDATE as separate statements with
no transaction and no status condition on the UPDATE, so this interleaving is
one the Durable Store can produce. -/
def twoConcurrentApproves (actor1 actor2 : String) (now : ℕ) (oid : String)
    (db : DB) : (ActionResult × ActionResult) × DB :=
  let read1 := findOrder db oid
  let read2 := findOrder db oid
  let step1 : ActionResult × DB :=
    match read1 with
    | none => ({ success := false, message := "Order not found" }, db)
    | some order1 =>
      if order1.status ≠ OrderStatus.pending then
        ({ success := false, message := "Order is not in pending status" }, db)
      else approveApply actor1 okOracle now oid order1 db
  let step2 : ActionResult × DB :=
    match read2 with
    | none => ({ success := false, message := "Order not found" }, step1.2)
    | some order2 =>
      if order2.status ≠ OrderStatus.pending then
        ({ success := false, message := "Order is not in pending status" }, step1.2)
      else approveApply actor2 okOracle now oid order2 step1.2
  ((step1.1, step2.1), step2.2)

/-! ### Sample data for concrete evaluations -/

/-- A pending order created by the sales user s1. -/
def pendingOrder : OrderRow :=
  { id := "o1", orderNumber := "ORD-1", customerName := "Alice",
    total := 25, status := OrderStatus.pending, createdBy := some "s1" }

/-- A store holding the pending order and one user per role. -/
def dbPending : DB :=
  { orders := [pendingOrder],
    users := [{ id := "s1", role := "sales" }, { id := "acc1", role := "accountant" },
              { id := "w1", role := "warehouse" }, { id := "ad1", role := "admin" }] }

/-- A rejected order (terminal per the spec). -/
def rejectedOrder : OrderRow :=
  { id := "o2", orderNumber := "ORD-2", customerName := "Bob",
    total := 40, status := OrderStatus.rejected, createdBy := some "s1" }

/-- A store holding the rejected order. -/
def dbRejected : DB :=
  { orders := [rejectedOrder],
    users := [{ id := "s1", role := "sales" }, { id := "ad1", role := "admin" }] }

/-- A shipped order whose creator u1 is also an admin. -/
def shippedOrder : OrderRow :=
  { id := "o3", orderNumber := "ORD-3", customerName := "Carol",
    total := 60, status := OrderStatus.shipped, createdBy := some "u1" }

/-- A store where the creator of the shipped order carries the admin role. -/
def dbShippedAdminCreator : DB :=
  { orders := [shippedOrder], users := [{ id := "u1", role := "admin" }] }

/-- A store holding the shipped order with a sales creator and one admin. -/
def dbShipped : DB :=
  { orders := [{ shippedOrder with createdBy := some "s1" }],
    users := [{ id := "s1", role := "sales" }, { id := "ad1", role := "admin" }] }

/-- The empty store. -/
def emptyDB : DB := {}

/-- Scenario A of spec §8: two items, price 10.00 quantity 2 and
price 5.00 quantity 1. -/
def scenarioAItems : List CreateItemData :=
  [{ name := "Widget", price := 10, quantity := 2 },
   { name := "Gadget", price := 5, quantity := 1 }]

/-- Scenario A create-order payload. -/
def scenarioAData : CreateOrderData :=
  { customerName := "Alice", items := scenarioAItems }

/-! ### Store helper lemmas -/

theorem find_map_update (l : List OrderRow) (oid : String) (f : OrderRow → OrderRow)
    (hf : ∀ o : OrderRow, (f o).id = o.id) :
    (l.map (fun o => if o.id = oid then f o else o)).find? (fun o => o.id = oid)
      = (l.find? (fun o => o.id = oid)).map f := by
  induction l with
  | nil => simp
  | cons hd tl ih =>
    by_cases hh : hd.id = oid
    · simp [List.find?_cons, hh, hf]
    · simp [List.find?_cons, hh, ih]

/-- Updating an order by id, then selecting it, yields the updated row. -/
theorem findOrder_setOrder (db : DB) (oid : String) (f : OrderRow → OrderRow)
    (hf : ∀ o : OrderRow, (f o).id = o.id) :
    findOrder (setOrder db oid f) oid = (findOrder db oid).map f :=
  find_map_update db.orders oid f hf

@[simp] theorem setOrder_history (db : DB) (oid : String) (f : OrderRow → OrderRow) :
    (setOrder db oid f).history = db.history := rfl

@[simp] theorem setOrder_notifications (db : DB) (oid : String) (f : OrderRow → OrderRow) :
    (setOrder db oid f).notifications = db.notifications := rfl

@[simp] theorem setOrder_users (db : DB) (oid : String) (f : OrderRow → OrderRow) :
    (setOrder db oid f).users = db.users := rfl

@[simp] theorem setOrder_pushed (db : DB) (oid : String) (f : OrderRow → OrderRow) :
    (setOrder db oid f).pushed = db.pushed := rfl

@[simp] theorem appendHistory_orders (db : DB) (e : HistoryRow) :
    (appendHistory db e).orders = db.orders := rfl

@[simp] theorem appendHistory_history (db : DB) (e : HistoryRow) :
    (appendHistory db e).history = db.history ++ [e] := rfl

@[simp] theorem appendHistory_notifications (db : DB) (e : HistoryRow) :
    (appendHistory db e).notifications = db.notifications := rfl

@[simp] theorem appendHistory_users (db : DB) (e : HistoryRow) :
    (appendHistory db e).users = db.users := rfl

@[simp] theorem insertNotification_orders (db : DB) (n : NotificationRow) :
    (insertNotification db n).orders = db.orders := rfl

@[simp] theorem insertNotification_history (db : DB) (n : NotificationRow) :
    (insertNotification db n).history = db.history := rfl

@[simp] theorem insertNotification_users (db : DB) (n : NotificationRow) :
    (insertNotification db n).users = db.users := rfl

@[simp] theorem insertNotification_notifications (db : DB) (n : NotificationRow) :
    (insertNotification db n).notifications = db.notifications ++ [n] := rfl

@[simp] theorem createNotification_orders (o : Oracle) (db : DB)
    (u t m : String) (oid : Option String) :
    (createNotification o db u t m oid).orders = db.orders := by
  unfold createNotification
  split <;> rfl

@[simp] theorem createNotification_history (o : Oracle) (db : DB)
    (u t m : String) (oid : Option String) :
    (createNotification o db u t m oid).history = db.history := by
  unfold createNotification
  split <;> rfl

@[simp] theorem createNotification_users (o : Oracle) (db : DB)
    (u t m : String) (oid : Option String) :
    (createNotification o db u t m oid).users = db.users := by
  unfold createNotification
  split <;> rfl

@[simp] theorem notifyEach_orders (o : Oracle) (t m : String) (oid : Option String)
    (us : List String) (db : DB) :
    (notifyEach o t m oid us db).orders = db.orders := by
  induction us generalizing db with
  | nil => rfl
  | cons hd tl ih => simp [notifyEach, List.foldl_cons] at ih ⊢; rw [ih]; simp

@[simp] theorem notifyEach_history (o : Oracle) (t m : String) (oid : Option String)
    (us : List String) (db : DB) :
    (notifyEach o t m oid us db).history = db.history := by
  induction us generalizing db with
  | nil => rfl
  | cons hd tl ih => simp [notifyEach, List.foldl_cons] at ih ⊢; rw [ih]; simp

@[simp] theorem notifyEach_users (o : Oracle) (t m : String) (oid : Option String)
    (us : List String) (db : DB) :
    (notifyEach o t m oid us db).users = db.users := by
  induction us generalizing db with
  | nil => rfl
  | cons hd tl ih => simp [notifyEach, List.foldl_cons] at ih ⊢; rw [ih]; simp

@[simp] theorem adminFanout_orders (o : Oracle) (t m oid : String) (db : DB) :
    (adminFanout o t m oid db).orders = db.orders := by
  unfold adminFanout
  by_cases h1 : (usersWithRole db "admin").length = 0
  · simp [h1]
  · by_cases h2 : o.notifFails <;> by_cases h3 : o.pushFails <;> simp [h1, h2, h3]

@[simp] theorem adminFanout_history (o : Oracle) (t m oid : String) (db : DB) :
    (adminFanout o t m oid db).history = db.history := by
  unfold adminFanout
  by_cases h1 : (usersWithRole db "admin").length = 0
  · simp [h1]
  · by_cases h2 : o.notifFails <;> by_cases h3 : o.pushFails <;> simp [h1, h2, h3]

@[simp] theorem adminFanout_users (o : Oracle) (t m oid : String) (db : DB) :
    (adminFanout o t m oid db).users = db.users := by
  unfold adminFanout
  by_cases h1 : (usersWithRole db "admin").length = 0
  · simp [h1]
  · by_cases h2 : o.notifFails <;> by_cases h3 : o.pushFails <;> simp [h1, h2, h3]

/-- Selecting an order only reads the orders table. -/
theorem findOrder_congr {db1 db2 : DB} (h : db1.orders = db2.orders) (oid : String) :
    findOrder db1 oid = findOrder db2 oid := by
  unfold findOrder
  rw [h]

/-- C2 counterexample: the claim says cancel fails on every terminal status,
`rejected` included; but on a rejected order `cancelOrder` succeeds and sets
the status to `cancelled` (the source guard blocks only `completed`, `failed`
and `cancelled`). -/
theorem C2_counterexample :
    (cancelOrder (some "acc1") true okOracle (some "why") "o2" dbRejected).1.success = true ∧
    ((findOrder (cancelOrder (some "acc1") true okOracle (some "why") "o2" dbRejected).2
      "o2").map OrderRow.status) = some OrderStatus.cancelled := by
  decide

/-- C2 amended: the accountant/admin cancel fails exactly when the current
status is `completed`, `failed` or `cancelled` (leaving the store unchanged);
from every other status — `rejected` and `partial_complete` included — it
succeeds and sets the status to `cancelled`. -/
theorem C2_amended (actor : String) (reason : Option String) (oid : String)
    (db : DB) (o : OrderRow) (h : findOrder db oid = some o) :
    ((o.status = OrderStatus.completed ∨ o.status = OrderStatus.failed ∨
        o.status = OrderStatus.cancelled) →
      (cancelOrder (some actor) true okOracle reason oid db).1.success = false ∧
      (cancelOrder (some actor) true okOracle reason oid db).2 = db) ∧
    ((o.status ≠ OrderStatus.completed ∧ o.status ≠ OrderStatus.failed ∧
        o.status ≠ OrderStatus.cancelled) →
      (cancelOrder (some actor) true okOracle reason oid db).1.success = true ∧
      (findOrder (cancelOrder (some actor) true okOracle reason oid db).2 oid).map
        OrderRow.status = some OrderStatus.cancelled) := by
  constructor
  · intro hterm
    refine ⟨?_, ?_⟩ <;> rcases hterm with h1 | h1 | h1 <;> simp [cancelOrder, h, h1]
  · intro hn
    obtain ⟨h1, h2, h3⟩ := hn
    have hguard : ¬(o.status = OrderStatus.completed ∨ o.status = OrderStatus.failed ∨
        o.status = OrderStatus.cancelled) := by tauto
    have horders : (cancelOrder (some actor) true okOracle reason oid db).2.orders
        = (setOrder db oid (fun r =>
            { r with status := OrderStatus.cancelled, updatedBy := some actor })).orders := by
      cases hcb : o.createdBy <;> simp [cancelOrder, h, hguard, hcb, okOracle]
    refine ⟨?_, ?_⟩
    · cases hcb : o.createdBy <;> simp [cancelOrder, h, hguard, hcb, okOracle]
    · rw [findOrder_congr horders, findOrder_setOrder db oid _ (by intro r; rfl), h]
      rfl

/-- C2 witness: a pending order is non-terminal, and cancelling it succeeds. -/
theorem C2_amended_witness :
    (cancelOrder (some "acc1") true okOracle none "o1" dbPending).1.success = true ∧
    (findOrder (cancelOrder (some "acc1") true okOracle none "o1" dbPending).2 "o1").map
      OrderRow.status = some OrderStatus.cancelled :=
  (C2_amended "acc1" none "o1" dbPending pendingOrder (by decide)).2 (by decide)

/-- C7: rejecting a pending order twice in sequence — the first call succeeds,
sets the status to `rejected`, records the reason and appends exactly one
history entry; the second call fails with the invalid-state message, changes
nothing in the store (in particular neither the rejectionReason nor the
history), and appends no second entry. -/
theorem C7_reject_twice (actor1 actor2 reason1 reason2 : String) (oid : String)
    (db : DB) (o : OrderRow) (h : findOrder db oid = some o)
    (hp : o.status = OrderStatus.pending) :
    (rejectOrder (some actor1) true okOracle reason1 oid db).1.success = true ∧
    (findOrder (rejectOrder (some actor1) true okOracle reason1 oid db).2 oid).map
      OrderRow.status = some OrderStatus.rejected ∧
    (findOrder (rejectOrder (some actor1) true okOracle reason1 oid db).2 oid).map
      OrderRow.rejectionReason = some (some reason1) ∧
    (rejectOrder (some actor1) true okOracle reason1 oid db).2.history =
      db.history ++ [{ orderId := oid, action := "status_changed",
                       fromStatus := some "pending", toStatus := some "rejected",
                       performedBy := some actor1, reason := some reason1,
                       notes := some "Order rejected by accountant" }] ∧
    (rejectOrder (some actor2) true okOracle reason2 oid
      (rejectOrder (some actor1) true okOracle reason1 oid db).2).1.success = false ∧
    (rejectOrder (some actor2) true okOracle reason2 oid
      (rejectOrder (some actor1) true okOracle reason1 oid db).2).1.message =
      "Order is not in pending status" ∧
    (rejectOrder (some actor2) true okOracle reason2 oid
      (rejectOrder (some actor1) true okOracle reason1 oid db).2).2 =
      (rejectOrder (some actor1) true okOracle reason1 oid db).2 := by
  have horders : (rejectOrder (some actor1) true okOracle reason1 oid db).2.orders
      = (setOrder db oid (fun r =>
          { r with status := OrderStatus.rejected,
                   rejectionReason := some reason1, updatedBy := some actor1 })).orders := by
    cases hcb : o.createdBy <;> simp [rejectOrder, h, hp, okOracle, hcb]
  have hfind1 : findOrder (rejectOrder (some actor1) true okOracle reason1 oid db).2 oid
      = some { o with status := OrderStatus.rejected,
                      rejectionReason := some reason1, updatedBy := some actor1 } := by
    rw [findOrder_congr horders, findOrder_setOrder db oid _ (by intro r; rfl), h]
    rfl
  have hsecond : rejectOrder (some actor2) true okOracle reason2 oid
      (rejectOrder (some actor1) true okOracle reason1 oid db).2 =
      ({ success := false, message := "Order is not in pending status" },
        (rejectOrder (some actor1) true okOracle reason1 oid db).2) := by
    generalize hd1 : (rejectOrder (some actor1) true okOracle reason1 oid db).2 = d1
      at hfind1 ⊢
    simp [rejectOrder, hfind1]
  refine ⟨?_, ?_, ?_, ?_, ?_, ?_, ?_⟩
  · cases hcb : o.createdBy <;> simp [rejectOrder, h, hp, okOracle, hcb]
  · rw [hfind1]; rfl
  · rw [hfind1]; rfl
  · cases hcb : o.createdBy <;> simp [rejectOrder, h, hp, okOracle, hcb]
  · rw [hsecond]
  · rw [hsecond]
  · rw [hsecond]

/-- C7 witness: the two sequential rejections of the sample pending order. -/
theorem C7_reject_twice_witness :
    (rejectOrder (some "acc1") true okOracle "Out of budget" "o1" dbPending).1.success = true ∧
    (findOrder (rejectOrder (some "acc1") true okOracle "Out of budget" "o1" dbPending).2
      "o1").map OrderRow.status = some OrderStatus.rejected ∧
    (findOrder (rejectOrder (some "acc1") true okOracle "Out of budget" "o1" dbPending).2
      "o1").map OrderRow.rejectionReason = some (some "Out of budget") ∧
    (rejectOrder (some "acc1") true okOracle "Out of budget" "o1" dbPending).2.history =
      dbPending.history ++ [{ orderId := "o1", action := "status_changed",
                              fromStatus := some "pending", toStatus := some "rejected",
                              performedBy := some "acc1", reason := some "Out of budget",
                              notes := some "Order rejected by accountant" }] ∧
    (rejectOrder (some "acc1") true okOracle "again" "o1"
      (rejectOrder (some "acc1") true okOracle "Out of budget" "o1" dbPending).2).1.success
      = false ∧
    (rejectOrder (some "acc1") true okOracle "again" "o1"
      (rejectOrder (some "acc1") true okOracle "Out of budget" "o1" dbPending).2).1.message =
      "Order is not in pending status" ∧
    (rejectOrder (some "acc1") true okOracle "again" "o1"
      (rejectOrder (some "acc1") true okOracle "Out of budget" "o1" dbPending).2).2 =
      (rejectOrder (some "acc1") true okOracle "Out of budget" "o1" dbPending).2 :=
  C7_reject_twice "acc1" "acc1" "Out of budget" "again" "o1" dbPending pendingOrder
    (by decide) (by decide)

/-- The admin fan-out only appends to the notifications table. -/
theorem adminFanout_notifications_prefix (o : Oracle) (t m oid : String) (db : DB) :
    ∃ tail, (adminFanout o t m oid db).notifications = db.notifications ++ tail := by
  unfold adminFanout
  by_cases h1 : (usersWithRole db "admin").length = 0
  · exact ⟨[], by simp [h1]⟩
  · by_cases h2 : o.notifFails
    · exact ⟨[], by simp [h1, h2]⟩
    · by_cases h3 : o.pushFails <;>
        exact ⟨(usersWithRole db "admin").map (fun a =>
          ({ userId := a, title := t, message := m, type := "order_status",
             orderId := some oid, isRead := false } : NotificationRow)),
          by simp [h1, h2, h3]⟩

/-- C10: a successful cancelOrder changes only the `status` and `updated_by`
columns of the order row — the supplied reason is written to no order column
(the schema has no cancellation-reason column, so the `cancellationReason`
key passed to `.set()` is dropped); the reason survives in the appended
history entry and in the creator's notification message. -/
theorem C10_cancel_frame (actor : String) (reason : Option String) (oid : String)
    (db : DB) (o : OrderRow) (h : findOrder db oid = some o)
    (hs : ¬(o.status = OrderStatus.completed ∨ o.status = OrderStatus.failed ∨
        o.status = OrderStatus.cancelled)) :
    (cancelOrder (some actor) true okOracle reason oid db).1.success = true ∧
    findOrder (cancelOrder (some actor) true okOracle reason oid db).2 oid =
      some { o with status := OrderStatus.cancelled, updatedBy := some actor } ∧
    (cancelOrder (some actor) true okOracle reason oid db).2.history =
      db.history ++ [{ orderId := oid, action := "status_changed",
                       fromStatus := some (statusStr o.status),
                       toStatus := some "cancelled",
                       performedBy := some actor, reason := reason,
                       notes := some ("Order cancelled" ++
                         (match reason with
                          | some r => ": " ++ r
                          | none => "")) }] ∧
    (∀ c r, o.createdBy = some c → reason = some r →
      ({ userId := c, title := "Order Cancelled",
         message := "Your order " ++ o.orderNumber ++ " has been cancelled" ++
           (". Reason: " ++ r) ++ ".",
         type := "order_status", orderId := some oid,
         isRead := false } : NotificationRow) ∈
        (cancelOrder (some actor) true okOracle reason oid db).2.notifications) := by
  have horders : (cancelOrder (some actor) true okOracle reason oid db).2.orders
      = (setOrder db oid (fun r =>
          { r with status := OrderStatus.cancelled, updatedBy := some actor })).orders := by
    cases hcb : o.createdBy <;> simp [cancelOrder, h, hs, hcb, okOracle]
  refine ⟨?_, ?_, ?_, ?_⟩
  · cases hcb : o.createdBy <;> simp [cancelOrder, h, hs, hcb, okOracle]
  · rw [findOrder_congr horders, findOrder_setOrder db oid _ (by intro r; rfl), h]
    rfl
  · cases hcb : o.createdBy <;> simp [cancelOrder, h, hs, hcb, okOracle]
  · intro c r hcb hr
    subst hr
    have hrun : (cancelOrder (some actor) true okOracle (some r) oid db).2
        = adminFanout okOracle "Order Cancelled"
            ("Order " ++ o.orderNumber ++ " has been cancelled" ++ (": " ++ r)) oid
            (insertNotification
              (appendHistory
                (setOrder db oid (fun row =>
                  { row with status := OrderStatus.cancelled, updatedBy := some actor }))
                { orderId := oid, action := "status_changed",
                  fromStatus := some (statusStr o.status), toStatus := some "cancelled",
                  performedBy := some actor, reason := some r,
                  notes := some ("Order cancelled" ++ (": " ++ r)) })
              { userId := c, title := "Order Cancelled",
                message := "Your order " ++ o.orderNumber ++ " has been cancelled" ++
                  (". Reason: " ++ r) ++ ".",
                type := "order_status", orderId := some oid, isRead := false }) := by
      simp [cancelOrder, h, hs, hcb, okOracle]
    rw [hrun]
    obtain ⟨tail, htail⟩ := adminFanout_notifications_prefix okOracle "Order Cancelled"
      ("Order " ++ o.orderNumber ++ " has been cancelled" ++ (": " ++ r)) oid
      (insertNotification
        (appendHistory
          (setOrder db oid (fun row =>
            { row with status := OrderStatus.cancelled, updatedBy := some actor }))
          { orderId := oid, action := "status_changed",
            fromStatus := some (statusStr o.status), toStatus := some "cancelled",
            performedBy := some actor, reason := some r,
            notes := some ("Order cancelled" ++ (": " ++ r)) })
        { userId := c, title := "Order Cancelled",
          message := "Your order " ++ o.orderNumber ++ " has been cancelled" ++
            (". Reason: " ++ r) ++ ".",
          type := "order_status", orderId := some oid, isRead := false })
    rw [htail]
    simp [insertNotification]

/-- C10 witness: cancelling the sample pending order with a reason. -/
theorem C10_cancel_frame_witness :
    (cancelOrder (some "acc1") true okOracle (some "dup") "o1" dbPending).1.success = true ∧
    findOrder (cancelOrder (some "acc1") true okOracle (some "dup") "o1" dbPending).2 "o1" =
      some { pendingOrder with status := OrderStatus.cancelled, updatedBy := some "acc1" } ∧
    (cancelOrder (some "acc1") true okOracle (some "dup") "o1" dbPending).2.history =
      dbPending.history ++ [{ orderId := "o1", action := "status_changed",
                              fromStatus := some (statusStr pendingOrder.status),
                              toStatus := some "cancelled",
                              performedBy := some "acc1", reason := some "dup",
                              notes := some ("Order cancelled" ++
                                (match some "dup" with
                                 | some r => ": " ++ r
                                 | none => "")) }] ∧
    (∀ c r, pendingOrder.createdBy = some c → (some "dup" : Option String) = some r →
      ({ userId := c, title := "Order Cancelled",
         message := "Your order " ++ pendingOrder.orderNumber ++ " has been cancelled" ++
           (". Reason: " ++ r) ++ ".",
         type := "order_status", orderId := some "o1",
         isRead := false } : NotificationRow) ∈
        (cancelOrder (some "acc1") true okOracle (some "dup") "o1" dbPending).2.notifications) :=
  C10_cancel_frame "acc1" (some "dup") "o1" dbPending pendingOrder (by decide) (by decide)

/-- The role lookup only reads the user table. -/
theorem usersWithRole_congr {db1 db2 : DB} (h : db1.users = db2.users) (r : String) :
    usersWithRole db1 r = usersWithRole db2 r := by
  unfold usersWithRole
  rw [h]

/-- Counting the notifications a bulk per-recipient insert produces for one
recipient: one per occurrence of that recipient in the recipient list. -/
theorem filter_map_userId (l : List String) (c : String)
    (mk : String → NotificationRow) (hmk : ∀ a, (mk a).userId = a) :
    ((l.map mk).filter (fun n => n.userId = c)).length = l.count c := by
  induction l with
  | nil => simp
  | cons hd tl ih =>
    by_cases hc : hd = c
    · simp [List.filter_cons, hmk, hc, List.count_cons, ih]
    · simp [List.filter_cons, hmk, hc, List.count_cons, ih]

/-- C6 counterexample: completing an order whose creator also carries the
admin role produces two notifications for the creator for the single
completion event (one through the creator rule, one through the admin
fan-out) — the claim says exactly one. -/
theorem C6_counterexample :
    (completeOrder (some "sh1") true okOracle 9 none "o3" dbShippedAdminCreator).1.success
      = true ∧
    ((completeOrder (some "sh1") true okOracle 9 none "o3"
        dbShippedAdminCreator).2.notifications.filter
      (fun n => n.userId = "u1")).length = 2 := by
  decide

/-- C6 amended: the completion fan-out performs no deduplication — when the
creator occurs once in the admin recipient set, the creator receives exactly
two notifications for the completion event (one through the creator rule and
one through the admin rule). -/
theorem C6_amended (actor c : String) (notes : Option String) (now : ℕ)
    (oid : String) (db : DB) (o : OrderRow) (h : findOrder db oid = some o)
    (hst : o.status = OrderStatus.shipped) (hcb : o.createdBy = some c)
    (hcount : (usersWithRole db "admin").count c = 1) :
    (completeOrder (some actor) true okOracle now notes oid db).1.success = true ∧
    ((completeOrder (some actor) true okOracle now notes oid
        db).2.notifications.filter (fun n => n.userId = c)).length =
      (db.notifications.filter (fun n => n.userId = c)).length + 2 := by
  have hne : (usersWithRole db "admin").length ≠ 0 := by
    intro hlen
    rw [List.length_eq_zero] at hlen
    simp [hlen] at hcount
  refine ⟨by simp [completeOrder, h, hst, hcb, okOracle], ?_⟩
  have hrun : (completeOrder (some actor) true okOracle now notes oid db).2
      = adminFanout okOracle "Order Completed"
          ("Order " ++ o.orderNumber ++ " has been marked as completed") oid
          (insertNotification
            (appendHistory
              (setOrder db oid (fun r =>
                { r with status := OrderStatus.completed, completedAt := some now,
                         completionNotes := notes, updatedBy := some actor }))
              { orderId := oid, action := "status_changed",
                fromStatus := some "shipped", toStatus := some "completed",
                performedBy := some actor,
                notes := some ("Order completed by shipper" ++
                  (match notes with
                   | some n => ": " ++ n
                   | none => "")) })
            { userId := c, title := "Order Completed",
              message := "Your order " ++ o.orderNumber ++
                " has been completed successfully" ++
                (match notes with
                 | some n => ". Notes: " ++ n
                 | none => "") ++ ".",
              type := "order_status", orderId := some oid, isRead := false }) := by
    simp [completeOrder, h, hst, hcb, okOracle, createNotification]
  rw [hrun]
  rw [adminFanout]
  rw [@usersWithRole_congr _ db (by simp) "admin"]
  rw [if_neg hne]
  rw [if_neg (by simp [okOracle])]
  rw [if_neg (by simp [okOracle])]
  simp only [insertNotification_notifications, appendHistory_notifications,
    setOrder_notifications, List.filter_append, List.length_append]
  rw [filter_map_userId (usersWithRole db "admin") c _ (fun a => rfl), hcount]
  simp

/-- C6 amended witness: the shipped sample order whose creator u1 is the one
admin. -/
theorem C6_amended_witness :
    (completeOrder (some "sh1") true okOracle 9 (some "done") "o3"
      dbShippedAdminCreator).1.success = true ∧
    ((completeOrder (some "sh1") true okOracle 9 (some "done") "o3"
        dbShippedAdminCreator).2.notifications.filter
      (fun n => n.userId = "u1")).length =
      (dbShippedAdminCreator.notifications.filter (fun n => n.userId = "u1")).length + 2 :=
  C6_amended "sh1" "u1" (some "done") 9 "o3" dbShippedAdminCreator shippedOrder
    (by decide) (by decide) (by decide) (by decide)

/-- C5 counterexample: on the empty order set the warehouse dashboard
returns the hard-coded count `inventoryAlerts = 3` (and the mock
`avgProcessingTime = 2.5`), so "zero for every count" fails; the order-derived
counts and the ratios are zero. -/
theorem C5_counterexample :
    getDashboardMetrics "warehouse" "u1" [] 0 0 =
      Except.ok (⟨0, 0, 0, 0, 0, 0, 0⟩,
        RoleSpecificMetrics.warehouse
          { readyToShip := 0, confirmedToday := 0, inventoryAlerts := 3,
            avgProcessingTime := 5 / 2 }) ∧ (3 : ℕ) ≠ 0 := by
  exact ⟨rfl, by decide⟩

/-- C5 amended: on the empty order set the dashboard metrics succeed for
every role; every order-derived count and every ratio (average order value,
conversion rate, approval rate, delivery rate) is zero with no
division-by-zero; the only nonzero fields are the hard-coded mock constants
`inventoryAlerts = 3` and `avgProcessingTime = 2.5` of the warehouse view and
`activeUsers = 25` of the admin view. -/
theorem C5_amended (uid : String) (tm td : ℕ) :
    getDashboardMetrics "sales" uid [] tm td =
      Except.ok (⟨0, 0, 0, 0, 0, 0, 0⟩, RoleSpecificMetrics.sales
        { myOrders := 0, monthlyOrders := 0, monthlyRevenue := 0,
          conversionRate := 0 }) ∧
    getDashboardMetrics "accountant" uid [] tm td =
      Except.ok (⟨0, 0, 0, 0, 0, 0, 0⟩, RoleSpecificMetrics.accountant
        { approvedToday := 0, pendingValue := 0, approvalRate := 0 }) ∧
    getDashboardMetrics "warehouse" uid [] tm td =
      Except.ok (⟨0, 0, 0, 0, 0, 0, 0⟩, RoleSpecificMetrics.warehouse
        { readyToShip := 0, confirmedToday := 0, inventoryAlerts := 3,
          avgProcessingTime := 5 / 2 }) ∧
    getDashboardMetrics "shipper" uid [] tm td =
      Except.ok (⟨0, 0, 0, 0, 0, 0, 0⟩, RoleSpecificMetrics.shipper
        { readyToShip := 0, inTransit := 0, deliveredToday := 0,
          deliveryRate := 0 }) ∧
    getDashboardMetrics "admin" uid [] tm td =
      Except.ok (⟨0, 0, 0, 0, 0, 0, 0⟩, RoleSpecificMetrics.admin
        { activeUsers := 25, monthlyOrders := 0 }) :=
  ⟨rfl, rfl, rfl, rfl, rfl⟩

/-- Folding the running total is summing price × quantity. -/
theorem foldl_add_sum (f : CreateItemData → ℚ) (items : List CreateItemData) (a : ℚ) :
    items.foldl (fun s i => s + f i) a = a + (items.map f).sum := by
  induction items generalizing a with
  | nil => simp
  | cons hd tl ih => simp [List.foldl_cons, ih, add_assoc]

/-- The total computed by createOrder is the sum of price × quantity. -/
theorem orderTotal_eq_sum (items : List CreateItemData) :
    orderTotal items = (items.map (fun i => i.price * (i.quantity : ℚ))).sum := by
  unfold orderTotal
  rw [foldl_add_sum, zero_add]

/-- Selecting an id absent from the first table finds it in the appended rows. -/
theorem find_append_of_none {l1 l2 : List OrderRow} {p : OrderRow → Bool}
    (h : l1.find? p = none) : (l1 ++ l2).find? p = l2.find? p := by
  induction l1 with
  | nil => simp
  | cons hd tl ih =>
    by_cases hp : p hd = true
    · rw [List.find?_cons_of_pos _ hp] at h
      cases h
    · rw [List.find?_cons_of_neg _ hp] at h
      rw [List.cons_append, List.find?_cons_of_neg _ hp]
      exact ih h

/-- C9: createOrder stores the order in status `pending` with total equal to
the sum over the items of price × quantity. -/
theorem C9_create_total (actor newId orderNumber : String)
    (data : CreateOrderData) (db : DB) (hfresh : findOrder db newId = none)
    (hne : data.items ≠ []) :
    (createOrder (some actor) true okOracle newId orderNumber data db).1.success = true ∧
    (findOrder (createOrder (some actor) true okOracle newId orderNumber data db).2
      newId).map OrderRow.total =
      some ((data.items.map (fun i => i.price * (i.quantity : ℚ))).sum) ∧
    (findOrder (createOrder (some actor) true okOracle newId orderNumber data db).2
      newId).map OrderRow.status = some OrderStatus.pending := by
  have horders : (createOrder (some actor) true okOracle newId orderNumber data db).2.orders
      = db.orders ++ [{ id := newId, orderNumber := orderNumber,
                        customerName := data.customerName,
                        customerEmail := data.customerEmail,
                        customerPhone := data.customerPhone,
                        customerAddress := data.customerAddress,
                        total := orderTotal data.items, status := OrderStatus.pending,
                        createdBy := some actor, updatedBy := some actor }] := by
    simp [createOrder, okOracle, insertNotification]
  have hfind : findOrder (createOrder (some actor) true okOracle newId orderNumber data db).2
      newId = some { id := newId, orderNumber := orderNumber,
                     customerName := data.customerName,
                     customerEmail := data.customerEmail,
                     customerPhone := data.customerPhone,
                     customerAddress := data.customerAddress,
                     total := orderTotal data.items, status := OrderStatus.pending,
                     createdBy := some actor, updatedBy := some actor } := by
    unfold findOrder at hfresh ⊢
    rw [horders, find_append_of_none hfresh]
    simp
  refine ⟨?_, ?_, ?_⟩
  · simp [createOrder, okOracle]
  · rw [hfind, orderTotal_eq_sum]
    rfl
  · rw [hfind]
    rfl

/-- C9 witness: Scenario A — two items (10.00 × 2 and 5.00 × 1) give a
pending order with total 25.00. -/
theorem C9_create_total_witness :
    (createOrder (some "s1") true okOracle "n1" "ORD-9" scenarioAData emptyDB).1.success
      = true ∧
    (findOrder (createOrder (some "s1") true okOracle "n1" "ORD-9" scenarioAData
      emptyDB).2 "n1").map OrderRow.total = some 25 ∧
    (findOrder (createOrder (some "s1") true okOracle "n1" "ORD-9" scenarioAData
      emptyDB).2 "n1").map OrderRow.status = some OrderStatus.pending := by
  obtain ⟨h1, h2, h3⟩ := C9_create_total "s1" "n1" "ORD-9" scenarioAData emptyDB
    (by decide) (by decide)
  refine ⟨h1, ?_, h3⟩
  rw [h2]
  simp [scenarioAData, scenarioAItems]
  norm_num

/-- A changed field contributes its diff entry. -/
theorem diffField_mem (name oldV newV : String) (hne : oldV ≠ newV) :
    ({ field := name, oldValue := oldV, newValue := newV } : FieldChange)
      ∈ diffField name oldV newV := by
  unfold diffField
  rw [if_neg hne]
  exact List.mem_singleton_self _

/-- Every diff entry records an actual change. -/
theorem diffField_sound (name oldV newV : String) :
    ∀ fc ∈ diffField name oldV newV, fc.oldValue ≠ fc.newValue := by
  intro fc hfc
  unfold diffField at hfc
  split_ifs at hfc with heq
  · simp at hfc
  · simp at hfc
    subst hfc
    exact heq

/-- C3: resubmitting an edit_requested order returns it to `pending` and
appends one history entry whose structured payload is the field-level diff:
every changed field appears as an (old value → new value) entry, and every
entry records an actual change. -/
theorem C3_resubmit_diff (actor : String) (e : EditData) (oid : String)
    (db : DB) (o : OrderRow) (h : findOrder db oid = some o)
    (hst : o.status = OrderStatus.edit_requested) :
    (resubmitOrder (some actor) true e oid db).1.success = true ∧
    (findOrder (resubmitOrder (some actor) true e oid db).2 oid).map OrderRow.status
      = some OrderStatus.pending ∧
    (resubmitOrder (some actor) true e oid db).2.history =
      db.history ++ [{ orderId := oid, action := "order_resubmitted",
                       fromStatus := some "edit_requested", toStatus := some "pending",
                       fieldChanges := some (orderDiff o e),
                       performedBy := some actor }] ∧
    (o.customerName ≠ e.customerName →
      ({ field := "customerName", oldValue := o.customerName,
         newValue := e.customerName } : FieldChange) ∈ orderDiff o e) ∧
    (optStr o.customerEmail ≠ optStr e.customerEmail →
      ({ field := "customerEmail", oldValue := optStr o.customerEmail,
         newValue := optStr e.customerEmail } : FieldChange) ∈ orderDiff o e) ∧
    (optStr o.customerPhone ≠ optStr e.customerPhone →
      ({ field := "customerPhone", oldValue := optStr o.customerPhone,
         newValue := optStr e.customerPhone } : FieldChange) ∈ orderDiff o e) ∧
    (optStr o.customerAddress ≠ optStr e.customerAddress →
      ({ field := "customerAddress", oldValue := optStr o.customerAddress,
         newValue := optStr e.customerAddress } : FieldChange) ∈ orderDiff o e) ∧
    (ratStr o.total ≠ ratStr (orderTotal e.items) →
      ({ field := "total", oldValue := ratStr o.total,
         newValue := ratStr (orderTotal e.items) } : FieldChange) ∈ orderDiff o e) ∧
    (∀ fc ∈ orderDiff o e, fc.oldValue ≠ fc.newValue) := by
  have horders : (resubmitOrder (some actor) true e oid db).2.orders
      = (setOrder db oid (fun r =>
          { r with status := OrderStatus.pending,
                   customerName := e.customerName,
                   customerEmail := e.customerEmail,
                   customerPhone := e.customerPhone,
                   customerAddress := e.customerAddress,
                   total := orderTotal e.items,
                   updatedBy := some actor })).orders := by
    simp [resubmitOrder, h, hst]
  refine ⟨by simp [resubmitOrder, h, hst], ?_, by simp [resubmitOrder, h, hst], ?_, ?_, ?_, ?_, ?_, ?_⟩
  · rw [findOrder_congr horders, findOrder_setOrder db oid _ (by intro r; rfl), h]
    rfl
  · intro hne
    have := diffField_mem "customerName" o.customerName e.customerName hne
    simp only [orderDiff, List.mem_append]
    tauto
  · intro hne
    have := diffField_mem "customerEmail" (optStr o.customerEmail) (optStr e.customerEmail) hne
    simp only [orderDiff, List.mem_append]
    tauto
  · intro hne
    have := diffField_mem "customerPhone" (optStr o.customerPhone) (optStr e.customerPhone) hne
    simp only [orderDiff, List.mem_append]
    tauto
  · intro hne
    have := diffField_mem "customerAddress" (optStr o.customerAddress) (optStr e.customerAddress) hne
    simp only [orderDiff, List.mem_append]
    tauto
  · intro hne
    have := diffField_mem "total" (ratStr o.total) (ratStr (orderTotal e.items)) hne
    simp only [orderDiff, List.mem_append]
    tauto
  · intro fc hfc
    simp only [orderDiff, List.mem_append] at hfc
    rcases hfc with ((((h1 | h2) | h3) | h4) | h5)
    · exact diffField_sound _ _ _ fc h1
    · exact diffField_sound _ _ _ fc h2
    · exact diffField_sound _ _ _ fc h3
    · exact diffField_sound _ _ _ fc h4
    · exact diffField_sound _ _ _ fc h5

/-- C3 witness: resubmitting an edit_requested order with a changed customer
name and item list. -/
theorem C3_resubmit_diff_witness :
    ((resubmitOrder (some "s1") true
      { customerName := "Alice B", items := scenarioAItems } "o4"
      { orders := [{ id := "o4", orderNumber := "ORD-4", customerName := "Alice",
                     total := 10, status := OrderStatus.edit_requested }] }).1.success = true) ∧
    ({ field := "customerName", oldValue := "Alice",
       newValue := "Alice B" } : FieldChange) ∈
      orderDiff
        { id := "o4", orderNumber := "ORD-4", customerName := "Alice",
          total := 10, status := OrderStatus.edit_requested }
        { customerName := "Alice B", items := scenarioAItems } := by
  have hmain := C3_resubmit_diff "s1"
    { customerName := "Alice B", items := scenarioAItems } "o4"
    { orders := [{ id := "o4", orderNumber := "ORD-4", customerName := "Alice",
                   total := 10, status := OrderStatus.edit_requested }] }
    { id := "o4", orderNumber := "ORD-4", customerName := "Alice",
      total := 10, status := OrderStatus.edit_requested }
    (by decide) (by decide)
  exact ⟨hmain.1, hmain.2.2.2.1 (by decide)⟩

/-- C1 counterexample: when the history insert fails during approveOrder,
the call reports failure but the status write has already been applied and no
history entry exists — the claim says the status must then be unchanged. -/
theorem C1_counterexample :
    (approveOrder (some "acc1") true { historyFails := true } 5 "o1" dbPending).1.success
      = false ∧
    ((findOrder (approveOrder (some "acc1") true { historyFails := true } 5 "o1"
        dbPending).2 "o1").map OrderRow.status) = some OrderStatus.approved ∧
    (approveOrder (some "acc1") true { historyFails := true } 5 "o1" dbPending).2.history
      = dbPending.history := by
  decide

/-- C1 amended: the status write and the history append are sequential, not
atomic.  For every transition: when the run succeeds, exactly one history
entry is appended with the status write; when the history insert throws, the
call reports failure and appends nothing, but the status write persists
exactly as in the successful run (a status change without its audit entry). -/
theorem C1_amended (a : TAction) (actor oid : String) (now : ℕ) (db : DB)
    (h : (applyAction a (some actor) true okOracle now oid db).1.success = true) :
    (applyAction a (some actor) true okOracle now oid db).2.history.length
      = db.history.length + 1 ∧
    (applyAction a (some actor) true { historyFails := true } now oid db).1.success
      = false ∧
    (applyAction a (some actor) true { historyFails := true } now oid db).2.history
      = db.history ∧
    (applyAction a (some actor) true { historyFails := true } now oid db).2.orders
      = (applyAction a (some actor) true okOracle now oid db).2.orders := by
  cases a with
  | approve =>
    cases hfind : findOrder db oid with
    | none => simp [applyAction, approveOrder, hfind] at h
    | some o =>
      by_cases hst : o.status = OrderStatus.pending
      · refine ⟨?_, ?_, ?_, ?_⟩ <;>
          cases hcb : o.createdBy <;>
            simp [applyAction, approveOrder, hfind, hst, hcb, okOracle]
      · simp [applyAction, approveOrder, hfind, hst] at h
  | reject reason =>
    cases hfind : findOrder db oid with
    | none => simp [applyAction, rejectOrder, hfind] at h
    | some o =>
      by_cases hst : o.status = OrderStatus.pending
      · refine ⟨?_, ?_, ?_, ?_⟩ <;>
          cases hcb : o.createdBy <;>
            simp [applyAction, rejectOrder, hfind, hst, hcb, okOracle]
      · simp [applyAction, rejectOrder, hfind, hst] at h
  | warehouseConfirm =>
    cases hfind : findOrder db oid with
    | none => simp [applyAction, warehouseConfirmOrder, hfind] at h
    | some o =>
      by_cases hst : o.status = OrderStatus.approved
      · refine ⟨?_, ?_, ?_, ?_⟩ <;>
          cases hcb : o.createdBy <;>
            simp [applyAction, warehouseConfirmOrder, hfind, hst, hcb, okOracle]
      · simp [applyAction, warehouseConfirmOrder, hfind, hst] at h
  | warehouseReject reason =>
    cases hfind : findOrder db oid with
    | none => simp [applyAction, warehouseRejectOrder, hfind] at h
    | some o =>
      by_cases hst : o.status = OrderStatus.approved
      · refine ⟨?_, ?_, ?_, ?_⟩ <;>
          cases hcb : o.createdBy <;> cases hab : o.approvedBy <;>
            simp [applyAction, warehouseRejectOrder, hfind, hst, hcb, hab, okOracle]
      · simp [applyAction, warehouseRejectOrder, hfind, hst] at h
  | ship t n =>
    cases hfind : findOrder db oid with
    | none => simp [applyAction, shipOrder, hfind] at h
    | some o =>
      by_cases hst : o.status = OrderStatus.warehouse_confirmed
      · refine ⟨?_, ?_, ?_, ?_⟩ <;>
          cases hcb : o.createdBy <;>
            simp [applyAction, shipOrder, hfind, hst, hcb, okOracle]
      · simp [applyAction, shipOrder, hfind, hst] at h
  | complete n =>
    cases hfind : findOrder db oid with
    | none => simp [applyAction, completeOrder, hfind] at h
    | some o =>
      by_cases hst : o.status = OrderStatus.shipped
      · refine ⟨?_, ?_, ?_, ?_⟩ <;>
          cases hcb : o.createdBy <;>
            simp [applyAction, completeOrder, hfind, hst, hcb, okOracle]
      · simp [applyAction, completeOrder, hfind, hst] at h
  | deliveryFailed reason =>
    cases hfind : findOrder db oid with
    | none => simp [applyAction, failOrder, hfind] at h
    | some o =>
      by_cases hst : o.status = OrderStatus.shipped
      · refine ⟨?_, ?_, ?_, ?_⟩ <;>
          cases hcb : o.createdBy <;> cases hwb : o.warehouseConfirmedBy <;>
            simp [applyAction, failOrder, hfind, hst, hcb, hwb, okOracle]
      · simp [applyAction, failOrder, hfind, hst] at h
  | partialComplete n =>
    cases hfind : findOrder db oid with
    | none => simp [applyAction, partialCompleteOrder, hfind] at h
    | some o =>
      by_cases hst : o.status = OrderStatus.shipped
      · refine ⟨?_, ?_, ?_, ?_⟩ <;>
          cases hcb : o.createdBy <;>
            simp [applyAction, partialCompleteOrder, hfind, hst, hcb, okOracle]
      · simp [applyAction, partialCompleteOrder, hfind, hst] at h
  | cancel r =>
    cases hfind : findOrder db oid with
    | none => simp [applyAction, cancelOrder, hfind] at h
    | some o =>
      by_cases hst : (o.status = OrderStatus.completed ∨ o.status = OrderStatus.failed ∨
          o.status = OrderStatus.cancelled)
      · simp [applyAction, cancelOrder, hfind, hst] at h
      · refine ⟨?_, ?_, ?_, ?_⟩ <;>
          cases hcb : o.createdBy <;>
            simp [applyAction, cancelOrder, hfind, hst, hcb, okOracle]

/-- C1 witness: approving the sample pending order. -/
theorem C1_amended_witness :
    (applyAction TAction.approve (some "acc1") true okOracle 5 "o1" dbPending).1.success
      = true ∧
    (applyAction TAction.approve (some "acc1") true okOracle 5 "o1"
      dbPending).2.history.length = dbPending.history.length + 1 ∧
    (applyAction TAction.approve (some "acc1") true { historyFails := true } 5 "o1"
      dbPending).1.success = false ∧
    (applyAction TAction.approve (some "acc1") true { historyFails := true } 5 "o1"
      dbPending).2.history = dbPending.history ∧
    (applyAction TAction.approve (some "acc1") true { historyFails := true } 5 "o1"
      dbPending).2.orders =
      (applyAction TAction.approve (some "acc1") true okOracle 5 "o1" dbPending).2.orders := by
  have hmain := C1_amended TAction.approve "acc1" "o1" 5 dbPending (by decide)
  exact ⟨by decide, hmain.1, hmain.2.1, hmain.2.2.1, hmain.2.2.2⟩

/-- C8 counterexample: in partialCompleteOrder the creator notification is a
direct unguarded insert; when it throws, the transition is reported as failed
to the caller even though the status write and the history append have
already taken effect — the claim says a notification persistence failure is
never surfaced. -/
theorem C8_counterexample :
    (partialCompleteOrder (some "sh1") true { notifFails := true } (some "3 of 5") "o3"
      dbShipped).1.success = false ∧
    ((findOrder (partialCompleteOrder (some "sh1") true { notifFails := true }
        (some "3 of 5") "o3" dbShipped).2 "o3").map OrderRow.status)
      = some OrderStatus.partial_complete ∧
    (partialCompleteOrder (some "sh1") true { notifFails := true } (some "3 of 5") "o3"
      dbShipped).2.history.length = dbShipped.history.length + 1 := by
  decide

/-- C8 amended: SSE push failures are always swallowed (they never change the
returned result), and notification persistence failures are swallowed for the
transitions that persist through `createNotification` or try-wrapped blocks
(approve, reject, warehouseConfirm, warehouseReject, ship, complete, fail and
the admin fan-outs); but the unguarded creator inserts of
partialCompleteOrder and cancelOrder surface the failure: the call returns
failure even though the status write and history append already happened. -/
theorem C8_amended :
    (∀ (a : TAction) (s : Option String) (p : Bool) (now : ℕ) (oid : String) (db : DB),
      (applyAction a s p { pushFails := true } now oid db).1
        = (applyAction a s p okOracle now oid db).1) ∧
    (∀ (a : TAction) (s : Option String) (p : Bool) (nf pf : Bool) (now : ℕ)
        (oid : String) (db : DB), notifGuarded a = true →
      (applyAction a s p { notifFails := nf, pushFails := pf } now oid db).1
        = (applyAction a s p okOracle now oid db).1) ∧
    (∀ (notes : Option String) (actor oid : String) (db : DB) (o : OrderRow) (c : String),
      findOrder db oid = some o → o.status = OrderStatus.shipped →
      o.createdBy = some c →
      (partialCompleteOrder (some actor) true { notifFails := true } notes oid
        db).1.success = false ∧
      (partialCompleteOrder (some actor) true { notifFails := true } notes oid
        db).2.history.length = db.history.length + 1 ∧
      (findOrder (partialCompleteOrder (some actor) true { notifFails := true } notes oid
        db).2 oid).map OrderRow.status = some OrderStatus.partial_complete) ∧
    (∀ (r : Option String) (actor oid : String) (db : DB) (o : OrderRow) (c : String),
      findOrder db oid = some o →
      ¬(o.status = OrderStatus.completed ∨ o.status = OrderStatus.failed ∨
        o.status = OrderStatus.cancelled) → o.createdBy = some c →
      (cancelOrder (some actor) true { notifFails := true } r oid db).1.success = false ∧
      (cancelOrder (some actor) true { notifFails := true } r oid db).2.history.length
        = db.history.length + 1 ∧
      (findOrder (cancelOrder (some actor) true { notifFails := true } r oid db).2
        oid).map OrderRow.status = some OrderStatus.cancelled) := by
  refine ⟨?_, ?_, ?_, ?_⟩
  · intro a s p now oid db
    cases s with
    | none => cases a <;> rfl
    | some actor =>
      cases p with
      | false => cases a <;> rfl
      | true =>
        cases a with
        | approve =>
          cases hfind : findOrder db oid with
          | none => simp [applyAction, approveOrder, hfind]
          | some o =>
            by_cases hst : o.status = OrderStatus.pending
            · cases hcb : o.createdBy <;>
                simp [applyAction, approveOrder, hfind, hst, hcb, okOracle]
            · simp [applyAction, approveOrder, hfind, hst]
        | reject reason =>
          cases hfind : findOrder db oid with
          | none => simp [applyAction, rejectOrder, hfind]
          | some o =>
            by_cases hst : o.status = OrderStatus.pending
            · cases hcb : o.createdBy <;>
                simp [applyAction, rejectOrder, hfind, hst, hcb, okOracle]
            · simp [applyAction, rejectOrder, hfind, hst]
        | warehouseConfirm =>
          cases hfind : findOrder db oid with
          | none => simp [applyAction, warehouseConfirmOrder, hfind]
          | some o =>
            by_cases hst : o.status = OrderStatus.approved
            · cases hcb : o.createdBy <;>
                simp [applyAction, warehouseConfirmOrder, hfind, hst, hcb, okOracle]
            · simp [applyAction, warehouseConfirmOrder, hfind, hst]
        | warehouseReject reason =>
          cases hfind : findOrder db oid with
          | none => simp [applyAction, warehouseRejectOrder, hfind]
          | some o =>
            by_cases hst : o.status = OrderStatus.approved
            · cases hcb : o.createdBy <;> cases hab : o.approvedBy <;>
                simp [applyAction, warehouseRejectOrder, hfind, hst, hcb, hab, okOracle]
            · simp [applyAction, warehouseRejectOrder, hfind, hst]
        | ship t n =>
          cases hfind : findOrder db oid with
          | none => simp [applyAction, shipOrder, hfind]
          | some o =>
            by_cases hst : o.status = OrderStatus.warehouse_confirmed
            · cases hcb : o.createdBy <;>
                simp [applyAction, shipOrder, hfind, hst, hcb, okOracle]
            · simp [applyAction, shipOrder, hfind, hst]
        | complete n =>
          cases hfind : findOrder db oid with
          | none => simp [applyAction, completeOrder, hfind]
          | some o =>
            by_cases hst : o.status = OrderStatus.shipped
            · cases hcb : o.createdBy <;>
                simp [applyAction, completeOrder, hfind, hst, hcb, okOracle]
            · simp [applyAction, completeOrder, hfind, hst]
        | deliveryFailed reason =>
          cases hfind : findOrder db oid with
          | none => simp [applyAction, failOrder, hfind]
          | some o =>
            by_cases hst : o.status = OrderStatus.shipped
            · cases hcb : o.createdBy <;> cases hwb : o.warehouseConfirmedBy <;>
                simp [applyAction, failOrder, hfind, hst, hcb, hwb, okOracle]
            · simp [applyAction, failOrder, hfind, hst]
        | partialComplete n =>
          cases hfind : findOrder db oid with
          | none => simp [applyAction, partialCompleteOrder, hfind]
          | some o =>
            by_cases hst : o.status = OrderStatus.shipped
            · cases hcb : o.createdBy <;>
                simp [applyAction, partialCompleteOrder, hfind, hst, hcb, okOracle]
            · simp [applyAction, partialCompleteOrder, hfind, hst]
        | cancel r =>
          cases hfind : findOrder db oid with
          | none => simp [applyAction, cancelOrder, hfind]
          | some o =>
            by_cases hst : (o.status = OrderStatus.completed ∨
                o.status = OrderStatus.failed ∨ o.status = OrderStatus.cancelled)
            · simp [applyAction, cancelOrder, hfind, hst]
            · cases hcb : o.createdBy <;>
                simp [applyAction, cancelOrder, hfind, hst, hcb, okOracle]
  · intro a s p nf pf now oid db hg
    cases s with
    | none => cases a <;> rfl
    | some actor =>
      cases p with
      | false => cases a <;> rfl
      | true =>
        cases a with
        | approve =>
          cases hfind : findOrder db oid with
          | none => simp [applyAction, approveOrder, hfind]
          | some o =>
            by_cases hst : o.status = OrderStatus.pending
            · cases hcb : o.createdBy <;>
                simp [applyAction, approveOrder, hfind, hst, hcb, okOracle]
            · simp [applyAction, approveOrder, hfind, hst]
        | reject reason =>
          cases hfind : findOrder db oid with
          | none => simp [applyAction, rejectOrder, hfind]
          | some o =>
            by_cases hst : o.status = OrderStatus.pending
            · cases hcb : o.createdBy <;>
                simp [applyAction, rejectOrder, hfind, hst, hcb, okOracle]
            · simp [applyAction, rejectOrder, hfind, hst]
        | warehouseConfirm =>
          cases hfind : findOrder db oid with
          | none => simp [applyAction, warehouseConfirmOrder, hfind]
          | some o =>
            by_cases hst : o.status = OrderStatus.approved
            · cases hcb : o.createdBy <;>
                simp [applyAction, warehouseConfirmOrder, hfind, hst, hcb, okOracle]
            · simp [applyAction, warehouseConfirmOrder, hfind, hst]
        | warehouseReject reason =>
          cases hfind : findOrder db oid with
          | none => simp [applyAction, warehouseRejectOrder, hfind]
          | some o =>
            by_cases hst : o.status = OrderStatus.approved
            · cases hcb : o.createdBy <;> cases hab : o.approvedBy <;>
                simp [applyAction, warehouseRejectOrder, hfind, hst, hcb, hab, okOracle]
            · simp [applyAction, warehouseRejectOrder, hfind, hst]
        | ship t n =>
          cases hfind : findOrder db oid with
          | none => simp [applyAction, shipOrder, hfind]
          | some o =>
            by_cases hst : o.status = OrderStatus.warehouse_confirmed
            · cases hcb : o.createdBy <;>
                simp [applyAction, shipOrder, hfind, hst, hcb, okOracle]
            · simp [applyAction, shipOrder, hfind, hst]
        | complete n =>
          cases hfind : findOrder db oid with
          | none => simp [applyAction, completeOrder, hfind]
          | some o =>
            by_cases hst : o.status = OrderStatus.shipped
            · cases hcb : o.createdBy <;>
                simp [applyAction, completeOrder, hfind, hst, hcb, okOracle]
            · simp [applyAction, completeOrder, hfind, hst]
        | deliveryFailed reason =>
          cases hfind : findOrder db oid with
          | none => simp [applyAction, failOrder, hfind]
          | some o =>
            by_cases hst : o.status = OrderStatus.shipped
            · cases hcb : o.createdBy <;> cases hwb : o.warehouseConfirmedBy <;>
                simp [applyAction, failOrder, hfind, hst, hcb, hwb, okOracle]
            · simp [applyAction, failOrder, hfind, hst]
        | partialComplete n => simp [notifGuarded] at hg
        | cancel r => simp [notifGuarded] at hg
  · intro notes actor oid db o c hfind hst hcb
    have horders : (partialCompleteOrder (some actor) true { notifFails := true } notes oid
        db).2.orders = (setOrder db oid (fun r =>
          { r with status := OrderStatus.partial_complete,
                   completionNotes := notes, updatedBy := some actor })).orders := by
      simp [partialCompleteOrder, hfind, hst, hcb]
    refine ⟨?_, ?_, ?_⟩
    · simp [partialCompleteOrder, hfind, hst, hcb]
    · simp [partialCompleteOrder, hfind, hst, hcb]
    · rw [findOrder_congr horders, findOrder_setOrder db oid _ (by intro r; rfl), hfind]
      rfl
  · intro r actor oid db o c hfind hst hcb
    have horders : (cancelOrder (some actor) true { notifFails := true } r oid
        db).2.orders = (setOrder db oid (fun row =>
          { row with status := OrderStatus.cancelled, updatedBy := some actor })).orders := by
      simp [cancelOrder, hfind, hst, hcb]
    refine ⟨?_, ?_, ?_⟩
    · simp [cancelOrder, hfind, hst, hcb]
    · simp [cancelOrder, hfind, hst, hcb]
    · rw [findOrder_congr horders, findOrder_setOrder db oid _ (by intro row; rfl), hfind]
      rfl

/-- C8 witness: push and guarded notification failures leave the approve
result unchanged, while the unguarded creator insert of partialCompleteOrder
surfaces its failure after the writes. -/
theorem C8_amended_witness :
    (applyAction TAction.approve (some "acc1") true { notifFails := true, pushFails := true }
      5 "o1" dbPending).1
      = (applyAction TAction.approve (some "acc1") true okOracle 5 "o1" dbPending).1 ∧
    (partialCompleteOrder (some "sh1") true { notifFails := true } (some "3 of 5") "o3"
      dbShipped).1.success = false ∧
    (partialCompleteOrder (some "sh1") true { notifFails := true } (some "3 of 5") "o3"
      dbShipped).2.history.length = dbShipped.history.length + 1 := by
  refine ⟨C8_amended.2.1 TAction.approve (some "acc1") true true true 5 "o1" dbPending rfl,
    ?_, ?_⟩
  · exact (C8_amended.2.2.1 (some "3 of 5") "sh1" "o3" dbShipped
      { shippedOrder with createdBy := some "s1" } "s1" (by decide) (by decide) (by decide)).1
  · exact (C8_amended.2.2.1 (some "3 of 5") "sh1" "o3" dbShipped
      { shippedOrder with createdBy := some "s1" } "s1" (by decide) (by decide) (by decide)).2.1

/-- The race model's phases are exactly approveOrder's: a fresh read followed
by the check and the write phase is the sequential approveOrder. -/
theorem approveOrder_eq_phases (actor : String) (o : Oracle) (now : ℕ)
    (oid : String) (db : DB) :
    approveOrder (some actor) true o now oid db =
      match findOrder db oid with
      | none => ({ success := false, message := "Order not found" }, db)
      | some order =>
        if order.status ≠ OrderStatus.pending then
          ({ success := false, message := "Order is not in pending status" }, db)
        else approveApply actor o now oid order db := rfl

/-- C4: with both SELECTs interleaved before either write phase, two
concurrent approve calls on the same pending order BOTH succeed, the history
receives two pending→approved entries, and the final status is approved —
the claim (and spec §5) requires exactly one success and exactly one entry;
the source has no transaction, row lock or compare-and-swap to prevent this. -/
theorem C4_race :
    (twoConcurrentApproves "acc1" "acc2" 5 "o1" dbPending).1.1.success = true ∧
    (twoConcurrentApproves "acc1" "acc2" 5 "o1" dbPending).1.2.success = true ∧
    ((twoConcurrentApproves "acc1" "acc2" 5 "o1" dbPending).2.history.filter
      (fun e => e.fromStatus = some "pending" ∧ e.toStatus = some "approved")).length = 2 ∧
    ((findOrder (twoConcurrentApproves "acc1" "acc2" 5 "o1" dbPending).2 "o1").map
      OrderRow.status) = some OrderStatus.approved := by
  decide

end OrderWorkflow
